import Mathlib

/-!
# AssimpDemo model loader: scene-graph to GPU-resource conversion

A shallow embedding of `src/loadMesh/ModelLoader.cpp` and `src/loadMesh/Mesh.h`.

* Member functions take the object (`self`) and the log of calls made so far to
  the collaborators (graphics device, image-decode helpers, message box,
  importer lookup) and return the new object together with the extended log.
* A pointer is an `Option Handle`; `none` is `nullptr`.
* A call that returns an `HRESULT` and writes an out-pointer the caller has
  set to `nullptr` beforehand is an `Option Handle`: `some h` is `SUCCEEDED`
  with out-pointer `h`, `none` is `FAILED` with the out-pointer still null.
* `CreateWICTextureFromFile` is handed `&texture.texture`, which the caller
  never initialises; its result is a `WICFileResult`: the `HRESULT` and the
  pointer found in `texture.texture` after the call.
* The collaborators are a `Platform` record. Each device function sees the log
  of earlier calls, so its answer may depend on the whole history.
* `assert` is the `<cassert>` macro: it aborts unless `NDEBUG` is defined.
* Reading an element of a `std::vector` or of a C array out of range is
  undefined behaviour; the embedding stops there with `Fault.undefined`.
* `ATLTRACE` debug output is not modelled.
-/

namespace AssimpDemo

/-! ## Primitive types -/

/-- Text: a `std::string`, and an `aiString` as seen through `C_Str()` (the
source reads an `aiString` only through `C_Str()`). -/
abbrev Str := List Char

/-- Identity of a live COM object, window or device. -/
abbrev Handle := Nat

/-- A `float`, by bit pattern; the loader only copies floats. -/
abbrev FLOAT := Nat

/-- Value of `static_cast<UINT>(n)`, and of 32-bit unsigned arithmetic. -/
def toUINT (n : Nat) : Nat := n % 4294967296

/-- Value of `std::string::npos` (64-bit `size_t`). -/
def npos : Nat := 18446744073709551615

/-- Value of `sizeof(VERTEX)`: five floats. -/
def sizeof_VERTEX : Nat := 20

/-- Value of `sizeof(UINT)`. -/
def sizeof_UINT : Nat := 4

/-! ## Importer data (Assimp) -/

/-- Importer vector of three reals. -/
structure aiVector3D where
  x : FLOAT
  y : FLOAT
  z : FLOAT
  deriving DecidableEq, Repr

/-- Importer face: `mNumIndices` is the length of `mIndices`. -/
structure aiFace where
  mIndices : List Nat
  deriving DecidableEq, Repr

/-- Importer mesh. `mNumVertices` and `mNumFaces` are the lengths of
`mVertices` and `mFaces`; `mTextureCoords0` is `mTextureCoords[0]`, a null
pointer or an array read at the vertex index. -/
structure aiMesh where
  mVertices : List aiVector3D
  mTextureCoords0 : Option (Nat → aiVector3D)
  mFaces : List aiFace
  mMaterialIndex : Nat

/-- Texture roles of the importer; the loader asks for `DIFFUSE` only. -/
inductive aiTextureType where
  | NONE
  | DIFFUSE
  | SPECULAR
  deriving DecidableEq, Repr

/-- Importer material: `GetTextureCount type` is the length of `GetTexture type`,
and `GetTexture(type, i, &str)` writes its `i`-th entry. -/
structure aiMaterial where
  GetTexture : aiTextureType → List Str

/-- Importer embedded texture. -/
structure aiTexture where
  mWidth : Nat
  mHeight : Nat
  pcData : Nat
  deriving DecidableEq, Repr

/-- Importer node: mesh indices and children, both in listed order. -/
inductive aiNode where
  | mk (mMeshes : List Nat) (mChildren : List aiNode)

/-- Importer scene. -/
structure aiScene where
  mRootNode : aiNode
  mMeshes : List aiMesh
  mMaterials : List aiMaterial
  GetEmbeddedTexture : Str → Option aiTexture

/-! ## Graphics device data (Direct3D 11) -/

/-- Bind flag of a buffer description. -/
inductive BindFlag where
  | D3D11_BIND_VERTEX_BUFFER
  | D3D11_BIND_INDEX_BUFFER
  deriving DecidableEq, Repr

/-- Buffer description; `Usage` is always `D3D11_USAGE_IMMUTABLE`, and
`CPUAccessFlags` and `MiscFlags` are always 0. -/
structure D3D11_BUFFER_DESC where
  ByteWidth : Nat
  BindFlags : BindFlag
  deriving DecidableEq, Repr

/-- Description of a 2D texture; `Usage` is always `D3D11_USAGE_DEFAULT`, the
format `DXGI_FORMAT_B8G8R8A8_UNORM`, the bind flag
`D3D11_BIND_SHADER_RESOURCE`, and the other flags 0. -/
structure D3D11_TEXTURE2D_DESC where
  Width : Nat
  Height : Nat
  MipLevels : Nat
  ArraySize : Nat
  SampleCount : Nat
  SampleQuality : Nat
  deriving DecidableEq, Repr

/-- Initial data of a resource. -/
structure D3D11_SUBRESOURCE_DATA where
  pSysMem : Nat
  SysMemPitch : Nat
  SysMemSlicePitch : Nat
  deriving DecidableEq, Repr

/-- One call to a collaborator, with the arguments the loader chose. -/
inductive Event where
  | CreateBuffer (desc : D3D11_BUFFER_DESC)
  | CreateTexture2D (desc : D3D11_TEXTURE2D_DESC) (data : D3D11_SUBRESOURCE_DATA)
  | CreateShaderResourceView (resource : Option Handle)
  | CreateWICTextureFromFile (fileName : Str)
  | CreateWICTextureFromMemory (wicData : Nat) (wicDataSize : Nat)
  | GetEmbeddedTexture (filename : Str)
  | MessageBox (hwnd : Option Handle) (text : String)
  | Release (object : Handle)
  | IASetVertexBuffers (buffer : Option Handle) (stride : Nat) (offset : Nat)
  | IASetIndexBuffer (buffer : Option Handle)
  | PSSetShaderResources (view : Option Handle)
  | DrawIndexed (indexCount : Nat)
  deriving DecidableEq, Repr

/-- What a call of `CreateWICTextureFromFile` leaves behind: whether its
`HRESULT` is a success, and the pointer found afterwards in the out-parameter
`texture.texture`, which `loadMaterialTextures` does not initialise (so after a
failure it is what the helper wrote there, or what the memory held). -/
structure WICFileResult where
  succeeded : Bool
  textureView : Option Handle
  deriving DecidableEq, Repr

/-- The collaborators: build configuration, importer, device, decode helpers. -/
structure Platform where
  NDEBUG : Bool
  ReadFile : Str → Option aiScene
  CreateBuffer : List Event → D3D11_BUFFER_DESC → Option Handle
  CreateTexture2D : List Event → D3D11_TEXTURE2D_DESC → D3D11_SUBRESOURCE_DATA → Option Handle
  CreateShaderResourceView : List Event → Option Handle → Option Handle
  CreateWICTextureFromFile : List Event → Str → WICFileResult
  CreateWICTextureFromMemory : List Event → Nat → Nat → Option Handle

/-- Ways a call can fail to return normally. -/
inductive Fault where
  | assertion
  | runtime_error (what : String)
  | undefined
  deriving DecidableEq, Repr

/-- Result of a call: a value, or a fault; both with the log so far. -/
inductive Outcome (α : Type) where
  | ok (value : α) (log : List Event)
  | fault (f : Fault) (log : List Event)
  deriving DecidableEq, Repr

/-! ## `Mesh.h` -/

/-- Texture coordinate pair. -/
structure XMFLOAT2 where
  x : FLOAT
  y : FLOAT
  deriving DecidableEq, Repr

/-- Vertex of `Mesh.h`; `texcoord` is `none` while never written. -/
structure VERTEX where
  X : FLOAT
  Y : FLOAT
  Z : FLOAT
  texcoord : Option XMFLOAT2
  deriving DecidableEq, Repr

/-- Texture record of `Mesh.h`. -/
structure Texture where
  type : Str
  path : Str
  texture : Option Handle
  deriving DecidableEq, Repr

/-- Modelled from the spec: `SafeRelease` of `SafeRelease.hpp`, which is not
among the sources. A non-null pointer is released and then set to null (the
spec: "resource handles are nulled after release"); a null pointer is left
alone. -/
def SafeRelease (p : Option Handle) (log : List Event) : Option Handle × List Event :=
  match p with
  | some h => (none, log ++ [Event.Release h])
  | none => (none, log)

/-- Member `Texture::Release`. -/
def Texture.Release (self : Texture) (log : List Event) : Texture × List Event :=
  ({ self with texture := (SafeRelease self.texture log).1 }, (SafeRelease self.texture log).2)

/-- Class `Mesh` of `Mesh.h`. -/
structure Mesh where
  textures_ : List Texture
  vertices_ : List VERTEX
  indices_ : List Nat
  VertexBuffer_ : Option Handle
  IndexBuffer_ : Option Handle
  deriving DecidableEq, Repr

/-- Member `Mesh::Close`. -/
def Mesh.Close (self : Mesh) (log : List Event) : Mesh × List Event :=
  let r1 := SafeRelease self.VertexBuffer_ log
  let r2 := SafeRelease self.IndexBuffer_ r1.2
  ({ self with VertexBuffer_ := r1.1, IndexBuffer_ := r2.1 }, r2.2)

/-- Member `Mesh::setupMesh`. The expressions `&vertices_[0]` and
`&indices_[0]` only form the pointer handed to `CreateBuffer`, which reads
`ByteWidth` bytes from it; the pointer is not modelled and the call is made
whatever the lists hold. -/
def Mesh.setupMesh (P : Platform) (self : Mesh) (log : List Event) : Outcome Mesh :=
  let vbd : D3D11_BUFFER_DESC :=
    { ByteWidth := toUINT (sizeof_VERTEX * self.vertices_.length),
      BindFlags := BindFlag.D3D11_BIND_VERTEX_BUFFER }
  let log1 := log ++ [Event.CreateBuffer vbd]
  match P.CreateBuffer log vbd with
  | none => Outcome.fault (Fault.runtime_error "Failed to create vertex buffer.")
      (self.Close log1).2
  | some vb =>
    let self1 : Mesh := { self with VertexBuffer_ := some vb }
    let ibd : D3D11_BUFFER_DESC :=
      { ByteWidth := toUINT (sizeof_UINT * self1.indices_.length),
        BindFlags := BindFlag.D3D11_BIND_INDEX_BUFFER }
    let log2 := log1 ++ [Event.CreateBuffer ibd]
    match P.CreateBuffer log1 ibd with
    | none => Outcome.fault (Fault.runtime_error "Failed to create index buffer.")
        (self1.Close log2).2
    | some ib => Outcome.ok { self1 with IndexBuffer_ := some ib } log2

/-- Constructor `Mesh::Mesh`. -/
def Mesh.ctor (P : Platform) (vertices : List VERTEX) (indices : List Nat)
    (textures : List Texture) (log : List Event) : Outcome Mesh :=
  if !P.NDEBUG && (vertices.isEmpty || textures.isEmpty) then
    Outcome.fault Fault.assertion log
  else
    Mesh.setupMesh P
      { vertices_ := vertices, indices_ := indices, textures_ := textures,
        VertexBuffer_ := none, IndexBuffer_ := none } log

/-- Member `Mesh::Draw`. The device reads the view to bind through
`&textures_[0].texture`, so an empty texture list is a read out of range. -/
def Mesh.Draw (self : Mesh) (log : List Event) : Outcome Unit :=
  let stride := sizeof_VERTEX
  let offset := 0
  let log1 := log ++ [Event.IASetVertexBuffers self.VertexBuffer_ stride offset,
    Event.IASetIndexBuffer self.IndexBuffer_]
  match self.textures_ with
  | [] => Outcome.fault Fault.undefined log1
  | t :: _ =>
    Outcome.ok () (log1 ++ [Event.PSSetShaderResources t.texture,
      Event.DrawIndexed (toUINT self.indices_.length)])

/-! ## `ModelLoader.cpp` -/

/-- Class `ModelLoader`. -/
structure ModelLoader where
  dev_ : Option Handle
  devcon_ : Option Handle
  meshes_ : List Mesh
  directory_ : Str
  textures_loaded_ : List Texture
  hwnd_ : Option Handle
  deriving DecidableEq, Repr

/-- Constructor `ModelLoader::ModelLoader`. -/
def ModelLoader.ctor : ModelLoader :=
  { dev_ := none, devcon_ := none, meshes_ := [], directory_ := [],
    textures_loaded_ := [], hwnd_ := none }

/-- Scan of `std::string::find_last_of`: `best` is the last matching position
seen before position `i`. -/
def find_last_of.scan (chars : Str) : Str → Nat → Nat → Nat
  | [], _, best => best
  | c :: cs, i, best => find_last_of.scan chars cs (i + 1) (if c ∈ chars then i else best)

/-- Library `std::string::find_last_of`: the last position holding one of
`chars`, or `npos`. -/
def find_last_of (s : Str) (chars : Str) : Nat :=
  find_last_of.scan chars s 0 npos

/-- Library `std::string::substr` for `pos ≤ size`: `count` is clamped to the
rest of the string. -/
def substr (s : Str) (pos : Nat) (count : Nat) : Str :=
  (s.drop pos).take (min count (s.length - pos))

/-- Member `ModelLoader::loadEmbeddedTexture`. -/
def ModelLoader.loadEmbeddedTexture (P : Platform) (self : ModelLoader)
    (embeddedTexture : aiTexture) (log : List Event) : Option Handle × List Event :=
  if embeddedTexture.mHeight != 0 then
    let desc : D3D11_TEXTURE2D_DESC :=
      { Width := embeddedTexture.mWidth, Height := embeddedTexture.mHeight,
        MipLevels := 1, ArraySize := 1, SampleCount := 1, SampleQuality := 0 }
    let subresourceData : D3D11_SUBRESOURCE_DATA :=
      { pSysMem := embeddedTexture.pcData,
        SysMemPitch := toUINT (embeddedTexture.mWidth * 4),
        SysMemSlicePitch := toUINT (embeddedTexture.mWidth * embeddedTexture.mHeight * 4) }
    let texture2D := P.CreateTexture2D log desc subresourceData
    let log1 := log ++ [Event.CreateTexture2D desc subresourceData]
    let log2 := if texture2D.isNone then
      log1 ++ [Event.MessageBox self.hwnd_ "CreateTexture2D failed!"] else log1
    let texture := P.CreateShaderResourceView log2 texture2D
    let log3 := log2 ++ [Event.CreateShaderResourceView texture2D]
    let log4 := if texture.isNone then
      log3 ++ [Event.MessageBox self.hwnd_ "CreateShaderResourceView failed!"] else log3
    (texture, log4)
  else
    let size := embeddedTexture.mWidth
    let texture := P.CreateWICTextureFromMemory log embeddedTexture.pcData size
    let log1 := log ++ [Event.CreateWICTextureFromMemory embeddedTexture.pcData size]
    let log2 := if texture.isNone then
      log1 ++ [Event.MessageBox self.hwnd_ "Texture couldn't be created from memory!"] else log1
    (texture, log2)

/-- Decode step of the miss branch of `ModelLoader::loadMaterialTextures`
(lines 123-136): the handle left in `texture.texture`. -/
def ModelLoader.loadMaterialTextures.decode (P : Platform) (scene : aiScene) (str : Str)
    (self : ModelLoader) (log : List Event) : Outcome (Option Handle) :=
  let log0 := log ++ [Event.GetEmbeddedTexture str]
  match scene.GetEmbeddedTexture str with
  | some embeddedTexture =>
    Outcome.ok (self.loadEmbeddedTexture P embeddedTexture log0).1
      (self.loadEmbeddedTexture P embeddedTexture log0).2
  | none =>
    let path := self.directory_ ++ ['\\'] ++ str
    let log1 := log0 ++ [Event.CreateWICTextureFromFile path]
    let hr := P.CreateWICTextureFromFile log0 path
    if hr.succeeded then Outcome.ok hr.textureView log1
    else if P.NDEBUG then
      Outcome.ok hr.textureView
        (log1 ++ [Event.MessageBox self.hwnd_ "Texture couldn't be loaded"])
    else Outcome.fault Fault.assertion log1

/-- Body of the slot loop of `ModelLoader::loadMaterialTextures` (lines
106-141) for the slot whose identifier is `str`. -/
def ModelLoader.loadMaterialTextures.slot (P : Platform) (scene : aiScene) (str : Str)
    (textures : List Texture) (self : ModelLoader) (log : List Event) :
    Outcome (List Texture × ModelLoader) :=
  match self.textures_loaded_.find? (fun t => t.path == str) with
  | some t => Outcome.ok (textures ++ [t], self) log
  | none =>
    match ModelLoader.loadMaterialTextures.decode P scene str self log with
    | Outcome.fault f log1 => Outcome.fault f log1
    | Outcome.ok h log1 =>
      let texture : Texture := { type := [], path := str, texture := h }
      Outcome.ok (textures ++ [texture],
        { self with textures_loaded_ := self.textures_loaded_ ++ [texture] }) log1

/-- Slot loop of `ModelLoader::loadMaterialTextures` over the identifiers not
yet visited. -/
def ModelLoader.loadMaterialTextures.loop (P : Platform) (scene : aiScene) :
    List Str → List Texture → ModelLoader → List Event → Outcome (List Texture × ModelLoader)
  | [], textures, self, log => Outcome.ok (textures, self) log
  | str :: rest, textures, self, log =>
    match ModelLoader.loadMaterialTextures.slot P scene str textures self log with
    | Outcome.ok r log1 => ModelLoader.loadMaterialTextures.loop P scene rest r.1 r.2 log1
    | Outcome.fault f log1 => Outcome.fault f log1

/-- Member `ModelLoader::loadMaterialTextures`. -/
def ModelLoader.loadMaterialTextures (P : Platform) (self : ModelLoader) (mat : aiMaterial)
    (type : aiTextureType) (scene : aiScene) (log : List Event) :
    Outcome (List Texture × ModelLoader) :=
  ModelLoader.loadMaterialTextures.loop P scene (mat.GetTexture type) [] self log

/-- A sequence of `loadMaterialTextures` calls for the diffuse role on one
loader, one call per material, collecting the returned lists. -/
def ModelLoader.loadMaterialTextures.calls (P : Platform) (scene : aiScene) :
    List aiMaterial → ModelLoader → List Event → Outcome (List (List Texture) × ModelLoader)
  | [], self, log => Outcome.ok ([], self) log
  | mat :: rest, self, log =>
    match self.loadMaterialTextures P mat aiTextureType.DIFFUSE scene log with
    | Outcome.fault f log1 => Outcome.fault f log1
    | Outcome.ok r log1 =>
      match ModelLoader.loadMaterialTextures.calls P scene rest r.2 log1 with
      | Outcome.fault f log2 => Outcome.fault f log2
      | Outcome.ok rs log2 => Outcome.ok (r.1 :: rs.1, rs.2) log2

/-- Vertex loop of `ModelLoader::processMesh` (lines 56-73): `i` is the index
of the next vertex. -/
def ModelLoader.processMesh.vertexLoop (mesh : aiMesh) :
    List aiVector3D → Nat → List VERTEX → List VERTEX
  | [], _, vertices => vertices
  | v :: rest, i, vertices =>
    let vertex : VERTEX :=
      { X := v.x, Y := v.y, Z := v.z,
        texcoord := match mesh.mTextureCoords0 with
          | some uv => some { x := (uv i).x, y := (uv i).y }
          | none => none }
    ModelLoader.processMesh.vertexLoop mesh rest (i + 1) (vertices ++ [vertex])

/-- Index loops of `ModelLoader::processMesh` (lines 75-86). -/
def ModelLoader.processMesh.indexLoop (mesh : aiMesh) : List Nat :=
  mesh.mFaces.foldl
    (fun indices face => face.mIndices.foldl (fun indices j => indices ++ [j]) indices) []

/-- Member `ModelLoader::processMesh`. The test `mMaterialIndex >= 0` is on an
unsigned field and always holds. -/
def ModelLoader.processMesh (P : Platform) (self : ModelLoader) (mesh : aiMesh)
    (scene : aiScene) (log : List Event) : Outcome (Mesh × ModelLoader) :=
  let vertices := ModelLoader.processMesh.vertexLoop mesh mesh.mVertices 0 []
  let indices := ModelLoader.processMesh.indexLoop mesh
  match scene.mMaterials[mesh.mMaterialIndex]? with
  | none => Outcome.fault Fault.undefined log
  | some material =>
    match self.loadMaterialTextures P material aiTextureType.DIFFUSE scene log with
    | Outcome.fault f log1 => Outcome.fault f log1
    | Outcome.ok r log1 =>
      if !P.NDEBUG && r.1.isEmpty then Outcome.fault Fault.assertion log1
      else
        match Mesh.ctor P vertices indices ([] ++ r.1) log1 with
        | Outcome.fault f log2 => Outcome.fault f log2
        | Outcome.ok m log2 => Outcome.ok (m, r.2) log2

/-- Mesh loop of `ModelLoader::processNode` (lines 158-161). -/
def ModelLoader.processNode.meshLoop (P : Platform) (scene : aiScene) :
    List Nat → ModelLoader → List Event → Outcome ModelLoader
  | [], self, log => Outcome.ok self log
  | index :: rest, self, log =>
    match scene.mMeshes[index]? with
    | none => Outcome.fault Fault.undefined log
    | some mesh =>
      match self.processMesh P mesh scene log with
      | Outcome.fault f log1 => Outcome.fault f log1
      | Outcome.ok r log1 =>
        ModelLoader.processNode.meshLoop P scene rest
          { r.2 with meshes_ := r.2.meshes_ ++ [r.1] } log1

mutual
/-- Member `ModelLoader::processNode`. -/
def ModelLoader.processNode (P : Platform) (scene : aiScene) :
    aiNode → ModelLoader → List Event → Outcome ModelLoader
  | aiNode.mk mMeshes mChildren, self, log =>
    match ModelLoader.processNode.meshLoop P scene mMeshes self log with
    | Outcome.fault f log1 => Outcome.fault f log1
    | Outcome.ok self1 log1 => ModelLoader.processNode.childLoop P scene mChildren self1 log1
/-- Child loop of `ModelLoader::processNode` (lines 163-165). -/
def ModelLoader.processNode.childLoop (P : Platform) (scene : aiScene) :
    List aiNode → ModelLoader → List Event → Outcome ModelLoader
  | [], self, log => Outcome.ok self log
  | child :: rest, self, log =>
    match ModelLoader.processNode P scene child self log with
    | Outcome.fault f log1 => Outcome.fault f log1
    | Outcome.ok self1 log1 => ModelLoader.processNode.childLoop P scene rest self1 log1
end

/-- Member `ModelLoader::Load`. -/
def ModelLoader.Load (P : Platform) (self : ModelLoader) (hwnd dev devcon : Option Handle)
    (filename : Str) (log : List Event) : Outcome (Bool × ModelLoader) :=
  match P.ReadFile filename with
  | none => Outcome.ok (false, self) log
  | some pScene =>
    let self1 : ModelLoader :=
      { self with
        directory_ := substr filename 0 (find_last_of filename ['/', '\\']),
        dev_ := dev, devcon_ := devcon, hwnd_ := hwnd }
    match ModelLoader.processNode P pScene pScene.mRootNode self1 log with
    | Outcome.fault f log1 => Outcome.fault f log1
    | Outcome.ok self2 log1 => Outcome.ok (true, self2) log1

/-- Loop of `ModelLoader::Draw`. -/
def ModelLoader.Draw.loop : List Mesh → List Event → Outcome Unit
  | [], log => Outcome.ok () log
  | m :: rest, log =>
    match m.Draw log with
    | Outcome.fault f log1 => Outcome.fault f log1
    | Outcome.ok _ log1 => ModelLoader.Draw.loop rest log1

/-- Member `ModelLoader::Draw`. -/
def ModelLoader.Draw (self : ModelLoader) (log : List Event) : Outcome Unit :=
  ModelLoader.Draw.loop self.meshes_ log

/-- Texture loop of `ModelLoader::Close` (lines 148-149). -/
def ModelLoader.Close.textureLoop : List Texture → List Event → List Texture × List Event
  | [], log => ([], log)
  | t :: rest, log =>
    let r := t.Release log
    let rs := ModelLoader.Close.textureLoop rest r.2
    (r.1 :: rs.1, rs.2)

/-- Mesh loop of `ModelLoader::Close` (lines 151-153). -/
def ModelLoader.Close.meshLoop : List Mesh → List Event → List Mesh × List Event
  | [], log => ([], log)
  | m :: rest, log =>
    let r := m.Close log
    let rs := ModelLoader.Close.meshLoop rest r.2
    (r.1 :: rs.1, rs.2)

/-- Member `ModelLoader::Close`. -/
def ModelLoader.Close (self : ModelLoader) (log : List Event) : ModelLoader × List Event :=
  let r1 := ModelLoader.Close.textureLoop self.textures_loaded_ log
  let r2 := ModelLoader.Close.meshLoop self.meshes_ r1.2
  ({ self with textures_loaded_ := r1.1, meshes_ := r2.1 }, r2.2)

/-! ## Observations on the log -/

/-- Whether the event is a `CreateBuffer` call. -/
def Event.isCreateBuffer : Event → Bool
  | Event.CreateBuffer _ => true
  | _ => false

/-- Whether the event is the first device call of an embedded decode: the raw
pixel path (`CreateTexture2D`) or the memory-decode helper
(`CreateWICTextureFromMemory`). -/
def Event.isEmbeddedDecode : Event → Bool
  | Event.CreateTexture2D _ _ => true
  | Event.CreateWICTextureFromMemory _ _ => true
  | _ => false

/-- Whether the event is the first call of a texture decode: the file decode
helper, or the first device call of an embedded decode. -/
def Event.isDecode : Event → Bool
  | Event.CreateWICTextureFromFile _ => true
  | Event.CreateTexture2D _ _ => true
  | Event.CreateWICTextureFromMemory _ _ => true
  | _ => false

/-- Whether the event is a `DrawIndexed` call. -/
def Event.isDrawIndexed : Event → Bool
  | Event.DrawIndexed _ => true
  | _ => false

/-- Identifiers for which the miss branch of `loadMaterialTextures` ran (it
starts with the embedded lookup), in order. -/
def uploads : List Event → List Str
  | [] => []
  | Event.GetEmbeddedTexture str :: rest => str :: uploads rest
  | _ :: rest => uploads rest

/-- The record the cache scan of `loadMaterialTextures` finds for the path of
`t` is `t` itself. -/
def Cached (cache : List Texture) (t : Texture) : Prop :=
  cache.find? (fun u => u.path == t.path) = some t

/-- Effect of texture resolution on loader and log: only the cache changes, by
records `added` at its end; the miss branch ran once per added record, for its
path, and made one decode call per added record; no buffer was created; and
cache paths stay pairwise distinct. -/
def Resolved (self : ModelLoader) (log : List Event) (self' : ModelLoader)
    (log' : List Event) : Prop :=
  ∃ added : List Texture,
    self' = { self with textures_loaded_ := self.textures_loaded_ ++ added } ∧
    uploads log' = uploads log ++ added.map Texture.path ∧
    (log'.filter Event.isDecode).length = (log.filter Event.isDecode).length + added.length ∧
    log'.filter Event.isCreateBuffer = log.filter Event.isCreateBuffer ∧
    ((self.textures_loaded_.map Texture.path).Nodup →
      ((self.textures_loaded_ ++ added).map Texture.path).Nodup)

/-! ## Concrete inputs -/

/-- A platform on which every device call succeeds, except that the file decode
helper succeeds only when `files` is set (and nulls its out-parameter when it
fails). -/
def examplePlatform (ndebug : Bool) (scene : Option aiScene) (files : Bool) : Platform :=
  { NDEBUG := ndebug,
    ReadFile := fun _ => scene,
    CreateBuffer := fun _ desc => some (100 + desc.ByteWidth),
    CreateTexture2D := fun _ _ _ => some 20,
    CreateShaderResourceView := fun _ resource => resource.map (fun _ => 30),
    CreateWICTextureFromFile := fun _ _ => if files then ⟨true, some 40⟩ else ⟨false, none⟩,
    CreateWICTextureFromMemory := fun _ _ _ => some 50 }

/-- A platform on which every texture call fails: the file decode helper leaves
`left` in its out-parameter. -/
def exampleBrokenPlatform (ndebug : Bool) (left : Option Handle) : Platform :=
  { NDEBUG := ndebug,
    ReadFile := fun _ => none,
    CreateBuffer := fun _ desc => some (100 + desc.ByteWidth),
    CreateTexture2D := fun _ _ _ => none,
    CreateShaderResourceView := fun _ _ => none,
    CreateWICTextureFromFile := fun _ _ => ⟨false, left⟩,
    CreateWICTextureFromMemory := fun _ _ _ => none }

/-- A loader after `Load` stored a window, a device and a context, with base
directory `models`. -/
def exampleLoader : ModelLoader :=
  { dev_ := some 2, devcon_ := some 3, meshes_ := [], directory_ := "models".toList,
    textures_loaded_ := [], hwnd_ := some 1 }

/-- A scene without nodes' meshes in which every identifier names the embedded
texture `tex`. -/
def exampleEmbeddedScene (tex : aiTexture) : aiScene :=
  { mRootNode := aiNode.mk [] [],
    mMeshes := [],
    mMaterials := [],
    GetEmbeddedTexture := fun _ => some tex }

/-- A material with the given diffuse slots. -/
def exampleMaterial (slots : List Str) : aiMaterial :=
  { GetTexture := fun type => if type = aiTextureType.DIFFUSE then slots else [] }

/-- A triangle. -/
def exampleTriangle : aiMesh :=
  { mVertices := [⟨0, 0, 0⟩, ⟨1, 0, 0⟩, ⟨0, 1, 0⟩],
    mTextureCoords0 := some (fun i => ⟨i, i, 0⟩),
    mFaces := [⟨[0, 1, 2]⟩], mMaterialIndex := 0 }

/-- A mesh with one vertex and no face. -/
def exampleNoFaces : aiMesh :=
  { mVertices := [⟨0, 0, 0⟩], mTextureCoords0 := none, mFaces := [], mMaterialIndex := 0 }

/-- A mesh with one face and no vertex. -/
def exampleNoVertices : aiMesh :=
  { mVertices := [], mTextureCoords0 := none, mFaces := [⟨[0, 0, 0]⟩], mMaterialIndex := 0 }

/-- A scene with one node holding the given meshes, which share one material. -/
def exampleScene (meshes : List aiMesh) (slots : List Str) : aiScene :=
  { mRootNode := aiNode.mk (List.range meshes.length) [],
    mMeshes := meshes,
    mMaterials := [exampleMaterial slots],
    GetEmbeddedTexture := fun _ => none }

/-- A scene whose root holds a mesh and has two children: the first holds no
mesh and has one child holding a mesh, the second holds a mesh. -/
def exampleTree : aiScene :=
  { mRootNode := aiNode.mk [0] [aiNode.mk [] [aiNode.mk [1] []], aiNode.mk [0] []],
    mMeshes := [exampleTriangle, exampleTriangle],
    mMaterials := [exampleMaterial ["tex.png".toList]],
    GetEmbeddedTexture := fun _ => none }

/-- A mesh object holding 2^32 indices and one texture record. -/
def exampleHugeMesh : Mesh :=
  { textures_ := [{ type := [], path := [], texture := some 7 }],
    vertices_ := [], indices_ := List.replicate 4294967296 0,
    VertexBuffer_ := some 1, IndexBuffer_ := some 2 }

/-! ## Specification-side definitions -/

mutual
/-- Mesh references of a node tree in depth-first pre-order: the node's own
references in listed order, then those of each child in listed order. -/
def aiNode.preorder : aiNode → List Nat
  | aiNode.mk mMeshes mChildren => mMeshes ++ aiNode.preorderChildren mChildren
/-- Pre-order mesh references of a list of siblings, in listed order. -/
def aiNode.preorderChildren : List aiNode → List Nat
  | [] => []
  | child :: rest => aiNode.preorder child ++ aiNode.preorderChildren rest
end

/-- The mesh object `m` is the conversion of the mesh reference `index`: the
referenced importer mesh exists, its material exists, and `m` carries the
vertices of the vertex loop, the indices of the index loops, one texture record
per diffuse slot of the material in slot order, and no other data. -/
def ConvertedFrom (scene : aiScene) (index : Nat) (m : Mesh) : Prop :=
  ∃ mesh material,
    scene.mMeshes[index]? = some mesh ∧
    scene.mMaterials[mesh.mMaterialIndex]? = some material ∧
    m.vertices_ = ModelLoader.processMesh.vertexLoop mesh mesh.mVertices 0 [] ∧
    m.indices_ = ModelLoader.processMesh.indexLoop mesh ∧
    m.textures_.map Texture.path = material.GetTexture aiTextureType.DIFFUSE

/-- The device-context calls the draw of one mesh is to issue: bind the vertex
buffer, the index buffer and the first texture record, then draw
`indexCount` indices. -/
def Mesh.drawCalls (m : Mesh) (indexCount : Nat) : List Event :=
  [Event.IASetVertexBuffers m.VertexBuffer_ sizeof_VERTEX 0,
   Event.IASetIndexBuffer m.IndexBuffer_,
   Event.PSSetShaderResources (m.textures_.head?.bind Texture.texture),
   Event.DrawIndexed indexCount]

/-- The release calls owed for the handles a loader holds: every non-null
cached texture handle, then every non-null vertex and index buffer. -/
def ModelLoader.owedReleases (self : ModelLoader) : List Event :=
  (self.textures_loaded_.filterMap Texture.texture ++
    self.meshes_.flatMap (fun m => m.VertexBuffer_.toList ++ m.IndexBuffer_.toList)).map
    Event.Release

/-! # Theorems -/

/-! ## Teardown -/

theorem SafeRelease_fst (p : Option Handle) (log : List Event) : (SafeRelease p log).1 = none := by
  cases p <;> rfl

theorem SafeRelease_snd (p : Option Handle) (log : List Event) :
    (SafeRelease p log).2 = log ++ p.toList.map Event.Release := by
  cases p <;> simp [SafeRelease]

theorem Close_textureLoop_null (ts : List Texture) (log : List Event) :
    ∀ t ∈ (ModelLoader.Close.textureLoop ts log).1, t.texture = none := by
  induction ts generalizing log with
  | nil => simp [ModelLoader.Close.textureLoop]
  | cons t rest ih =>
    intro u hu
    simp only [ModelLoader.Close.textureLoop, List.mem_cons] at hu
    rcases hu with rfl | hu
    · simp [Texture.Release, SafeRelease_fst]
    · exact ih _ u hu

theorem Close_textureLoop_log (ts : List Texture) (log : List Event) :
    (ModelLoader.Close.textureLoop ts log).2 =
      log ++ (ts.filterMap Texture.texture).map Event.Release := by
  induction ts generalizing log with
  | nil => simp [ModelLoader.Close.textureLoop]
  | cons t rest ih =>
    simp only [ModelLoader.Close.textureLoop, ih, Texture.Release, SafeRelease_snd]
    cases h : t.texture <;> simp [List.filterMap_cons, h]

theorem Close_textureLoop_fixed (ts : List Texture) (log : List Event)
    (h : ∀ t ∈ ts, t.texture = none) : ModelLoader.Close.textureLoop ts log = (ts, log) := by
  induction ts generalizing log with
  | nil => rfl
  | cons t rest ih =>
    have ht : t.texture = none := h t (List.mem_cons_self _ _)
    have hr := ih log (fun u hu => h u (List.mem_cons_of_mem _ hu))
    simp [ModelLoader.Close.textureLoop, Texture.Release, SafeRelease, ht, hr]
    cases t
    simp_all

theorem Close_meshLoop_null (ms : List Mesh) (log : List Event) :
    ∀ m ∈ (ModelLoader.Close.meshLoop ms log).1,
      m.VertexBuffer_ = none ∧ m.IndexBuffer_ = none := by
  induction ms generalizing log with
  | nil => simp [ModelLoader.Close.meshLoop]
  | cons m rest ih =>
    intro u hu
    simp only [ModelLoader.Close.meshLoop, List.mem_cons] at hu
    rcases hu with rfl | hu
    · simp [Mesh.Close, SafeRelease_fst]
    · exact ih _ u hu

theorem Close_meshLoop_log (ms : List Mesh) (log : List Event) :
    (ModelLoader.Close.meshLoop ms log).2 =
      log ++ (ms.flatMap (fun m => m.VertexBuffer_.toList ++ m.IndexBuffer_.toList)).map
        Event.Release := by
  induction ms generalizing log with
  | nil => simp [ModelLoader.Close.meshLoop]
  | cons m rest ih =>
    simp only [ModelLoader.Close.meshLoop, ih, Mesh.Close, SafeRelease_snd]
    simp [List.flatMap_cons]

theorem Close_meshLoop_fixed (ms : List Mesh) (log : List Event)
    (h : ∀ m ∈ ms, m.VertexBuffer_ = none ∧ m.IndexBuffer_ = none) :
    ModelLoader.Close.meshLoop ms log = (ms, log) := by
  induction ms generalizing log with
  | nil => rfl
  | cons m rest ih =>
    have hm := h m (List.mem_cons_self _ _)
    have hr := ih log (fun u hu => h u (List.mem_cons_of_mem _ hu))
    simp [ModelLoader.Close.meshLoop, Mesh.Close, SafeRelease, hm.1, hm.2, hr]
    cases m
    simp_all

/-- C6: after one `Close` every cached texture handle and every mesh's vertex and
index buffer is null; the releases of that call are exactly one per non-null
handle held before it; and a second `Close` changes neither the loader nor the
log, so it releases nothing. -/
theorem Close_idempotent (self : ModelLoader) (log : List Event) :
    (∀ t ∈ (self.Close log).1.textures_loaded_, t.texture = none) ∧
    (∀ m ∈ (self.Close log).1.meshes_, m.VertexBuffer_ = none ∧ m.IndexBuffer_ = none) ∧
    (self.Close log).2 = log ++ self.owedReleases ∧
    (self.Close log).1.Close (self.Close log).2 = self.Close log ∧
    (self.Close log).1.owedReleases = [] := by
  have h1 := Close_textureLoop_null self.textures_loaded_ log
  have h2 := Close_meshLoop_null self.meshes_
    (ModelLoader.Close.textureLoop self.textures_loaded_ log).2
  refine ⟨h1, h2, ?_, ?_, ?_⟩
  · simp [ModelLoader.Close, ModelLoader.owedReleases, Close_textureLoop_log, Close_meshLoop_log]
  · simp only [ModelLoader.Close]
    rw [Close_textureLoop_fixed _ _ h1, Close_meshLoop_fixed _ _ h2]
  · simp only [ModelLoader.owedReleases, ModelLoader.Close]
    have e1 : List.filterMap Texture.texture
        (ModelLoader.Close.textureLoop self.textures_loaded_ log).1 = [] := by
      rw [List.filterMap_eq_nil_iff]
      exact h1
    have e2 : (ModelLoader.Close.meshLoop self.meshes_
          (ModelLoader.Close.textureLoop self.textures_loaded_ log).2).1.flatMap
        (fun m : Mesh => m.VertexBuffer_.toList ++ m.IndexBuffer_.toList) = [] := by
      rw [List.flatMap_eq_nil_iff]
      intro m hm
      simp [(h2 m hm).1, (h2 m hm).2]
    simp [e1, e2]

/-! ## Import failure -/

/-- C3: when the importer returns a null scene, `Load` returns `false` without a
fault, makes no call to a collaborator, and leaves every field of the loader as
it was; on a freshly constructed loader the mesh list and the texture cache are
therefore still empty. -/
theorem Load_null_scene (P : Platform) (self : ModelLoader) (hwnd dev devcon : Option Handle)
    (filename : Str) (log : List Event) (h : P.ReadFile filename = none) :
    ModelLoader.Load P self hwnd dev devcon filename log = Outcome.ok (false, self) log ∧
    ∃ s, ModelLoader.Load P ModelLoader.ctor hwnd dev devcon filename log =
        Outcome.ok (false, s) log ∧
      s.meshes_ = [] ∧ s.textures_loaded_ = [] ∧ s = ModelLoader.ctor := by
  have key : ∀ s0 : ModelLoader,
      ModelLoader.Load P s0 hwnd dev devcon filename log = Outcome.ok (false, s0) log := by
    intro s0
    simp [ModelLoader.Load, h]
  exact ⟨key self, ModelLoader.ctor, key _, rfl, rfl, rfl⟩

/-- Instance of C3: a fresh loader, an importer that finds no scene. -/
theorem Load_null_scene_witness :
    ModelLoader.Load (examplePlatform false none true) ModelLoader.ctor (some 1) (some 2) (some 3)
        "missing.obj".toList [] = Outcome.ok (false, ModelLoader.ctor) [] :=
  (Load_null_scene (examplePlatform false none true) ModelLoader.ctor (some 1) (some 2) (some 3)
    "missing.obj".toList [] rfl).1

/-! ## Index list -/

theorem push_back_foldl (xs acc : List Nat) :
    xs.foldl (fun indices j => indices ++ [j]) acc = acc ++ xs := by
  induction xs generalizing acc with
  | nil => simp
  | cons x rest ih => simp [ih]

theorem indexLoop_foldl (faces : List aiFace) (acc : List Nat) :
    faces.foldl
      (fun indices face => face.mIndices.foldl (fun indices j => indices ++ [j]) indices) acc =
      acc ++ (faces.map aiFace.mIndices).flatten := by
  induction faces generalizing acc with
  | nil => simp
  | cons f rest ih =>
    rw [List.foldl_cons, ih]
    simp [push_back_foldl]

theorem indexLoop_eq (mesh : aiMesh) :
    ModelLoader.processMesh.indexLoop mesh = (mesh.mFaces.map aiFace.mIndices).flatten := by
  simp [ModelLoader.processMesh.indexLoop, indexLoop_foldl]

theorem sum_const_three (faces : List aiFace) (h : ∀ f ∈ faces, f.mIndices.length = 3) :
    (faces.map (fun f => f.mIndices.length)).sum = 3 * faces.length := by
  induction faces with
  | nil => rfl
  | cons f rest ih =>
    have h1 := h f (List.mem_cons_self _ _)
    have h2 := ih (fun g hg => h g (List.mem_cons_of_mem _ hg))
    simp only [List.map_cons, List.sum_cons, List.length_cons, h1, h2]
    omega

theorem setupMesh_fields (P : Platform) (m m' : Mesh) (log log' : List Event)
    (h : Mesh.setupMesh P m log = Outcome.ok m' log') :
    m'.vertices_ = m.vertices_ ∧ m'.indices_ = m.indices_ ∧ m'.textures_ = m.textures_ := by
  unfold Mesh.setupMesh at h
  dsimp only at h
  split at h
  · simp at h
  · split at h
    · simp at h
    · simp only [Outcome.ok.injEq] at h
      rw [← h.1]
      exact ⟨rfl, rfl, rfl⟩

theorem ctor_fields (P : Platform) (vertices : List VERTEX) (indices : List Nat)
    (textures : List Texture) (m : Mesh) (log log' : List Event)
    (h : Mesh.ctor P vertices indices textures log = Outcome.ok m log') :
    m.vertices_ = vertices ∧ m.indices_ = indices ∧ m.textures_ = textures := by
  unfold Mesh.ctor at h
  split at h
  · simp at h
  · exact setupMesh_fields P _ m log log' h

theorem processMesh_fields (P : Platform) (self self' : ModelLoader) (mesh : aiMesh)
    (scene : aiScene) (m : Mesh) (log log' : List Event)
    (h : self.processMesh P mesh scene log = Outcome.ok (m, self') log') :
    m.vertices_ = ModelLoader.processMesh.vertexLoop mesh mesh.mVertices 0 [] ∧
    m.indices_ = ModelLoader.processMesh.indexLoop mesh ∧
    ∃ material log1, scene.mMaterials[mesh.mMaterialIndex]? = some material ∧
      self.loadMaterialTextures P material aiTextureType.DIFFUSE scene log =
        Outcome.ok (m.textures_, self') log1 := by
  unfold ModelLoader.processMesh at h
  dsimp only at h
  split at h
  · simp at h
  · rename_i material hmat
    split at h
    · simp at h
    · rename_i r log1 hload
      split at h
      · simp at h
      · split at h
        · simp at h
        · rename_i m0 log2 hctor
          simp only [Outcome.ok.injEq, Prod.mk.injEq] at h
          obtain ⟨⟨hm, hs⟩, _⟩ := h
          subst hm
          have hf := ctor_fields P _ _ _ _ _ _ hctor
          refine ⟨hf.1, hf.2.1, material, log1, hmat, ?_⟩
          rw [hload, hf.2.2, ← hs]
          simp

/-- C9: the index list `processMesh` builds is the concatenation of the faces'
index arrays in face order, each in its own order; its length is the sum of the
faces' index counts, and `3 × mNumFaces` when every face has 3 indices; and it
is the index list of the mesh object `processMesh` returns. -/
theorem processMesh_indexLoop_flatten (mesh : aiMesh) :
    ModelLoader.processMesh.indexLoop mesh = (mesh.mFaces.map aiFace.mIndices).flatten ∧
    (ModelLoader.processMesh.indexLoop mesh).length =
      (mesh.mFaces.map (fun f => f.mIndices.length)).sum ∧
    ((∀ f ∈ mesh.mFaces, f.mIndices.length = 3) →
      (ModelLoader.processMesh.indexLoop mesh).length = 3 * mesh.mFaces.length) ∧
    (∀ (P : Platform) (self self' : ModelLoader) (scene : aiScene) (m : Mesh)
        (log log' : List Event),
      self.processMesh P mesh scene log = Outcome.ok (m, self') log' →
      m.indices_ = (mesh.mFaces.map aiFace.mIndices).flatten) := by
  have hlen : (ModelLoader.processMesh.indexLoop mesh).length =
      (mesh.mFaces.map (fun f => f.mIndices.length)).sum := by
    rw [indexLoop_eq, List.length_flatten, List.map_map]
    rfl
  refine ⟨indexLoop_eq mesh, hlen, ?_, ?_⟩
  · intro h
    rw [hlen, sum_const_three _ h]
  · intro P self self' scene m log log' h
    rw [(processMesh_fields P self self' mesh scene m log log' h).2.1, indexLoop_eq]

/-- Instance of C9: the triangle mesh, converted on a fresh loader. -/
theorem processMesh_indexLoop_flatten_witness :
    ModelLoader.processMesh.indexLoop exampleTriangle = [0, 1, 2] ∧
    (ModelLoader.processMesh.indexLoop exampleTriangle).length = 3 * 1 ∧
    ∃ m self' log',
      ModelLoader.ctor.processMesh (examplePlatform false none true) exampleTriangle
        (exampleScene [exampleTriangle] ["tex.png".toList]) [] = Outcome.ok (m, self') log' ∧
      m.indices_ = [0, 1, 2] :=
  ⟨(processMesh_indexLoop_flatten exampleTriangle).1,
   (processMesh_indexLoop_flatten exampleTriangle).2.2.1 (by decide),
   _, _, _, rfl,
   (processMesh_indexLoop_flatten exampleTriangle).2.2.2 (examplePlatform false none true)
     ModelLoader.ctor _ (exampleScene [exampleTriangle] ["tex.png".toList]) _ [] _ rfl⟩

/-! ## Embedded textures -/

/-- C5, the claim fails: for an embedded texture of width 2^30 and height 1 the
raw-pixel path passes row pitch 0, not 2^30 × 4, to `CreateTexture2D`. -/
theorem loadEmbeddedTexture_pitch_wraps :
    (ModelLoader.loadEmbeddedTexture (examplePlatform false none true) ModelLoader.ctor
        { mWidth := 1073741824, mHeight := 1, pcData := 0 } []).2.filter
        Event.isEmbeddedDecode =
      [Event.CreateTexture2D
        { Width := 1073741824, Height := 1, MipLevels := 1, ArraySize := 1, SampleCount := 1,
          SampleQuality := 0 }
        { pSysMem := 0, SysMemPitch := 0, SysMemSlicePitch := 0 }] ∧
    (0 : Nat) ≠ 1073741824 * 4 := by
  decide

/-- C5, amended: `loadEmbeddedTexture` extends the log by calls of which exactly
one starts a decode. When `mHeight = 0` it is `CreateWICTextureFromMemory` with
byte length `mWidth` (and `CreateTexture2D` is not called); when `mHeight ≠ 0`
it is `CreateTexture2D` with `Width = mWidth`, `Height = mHeight` and row pitch
`(mWidth × 4) mod 2^32` (and the memory-decode helper is not called); that row
pitch is `mWidth × 4` whenever `mWidth < 2^30`. -/
theorem loadEmbeddedTexture_routes (P : Platform) (self : ModelLoader) (tex : aiTexture)
    (log : List Event) :
    ∃ new, (self.loadEmbeddedTexture P tex log).2 = log ++ new ∧
      (tex.mHeight = 0 →
        new.filter Event.isEmbeddedDecode =
          [Event.CreateWICTextureFromMemory tex.pcData tex.mWidth]) ∧
      (tex.mHeight ≠ 0 →
        new.filter Event.isEmbeddedDecode =
          [Event.CreateTexture2D
            { Width := tex.mWidth, Height := tex.mHeight, MipLevels := 1, ArraySize := 1,
              SampleCount := 1, SampleQuality := 0 }
            { pSysMem := tex.pcData, SysMemPitch := (tex.mWidth * 4) % 4294967296,
              SysMemSlicePitch := (tex.mWidth * tex.mHeight * 4) % 4294967296 }]) ∧
      (tex.mHeight ≠ 0 → tex.mWidth < 1073741824 →
        ∃ slice, new.filter Event.isEmbeddedDecode =
          [Event.CreateTexture2D
            { Width := tex.mWidth, Height := tex.mHeight, MipLevels := 1, ArraySize := 1,
              SampleCount := 1, SampleQuality := 0 }
            { pSysMem := tex.pcData, SysMemPitch := tex.mWidth * 4,
              SysMemSlicePitch := slice }]) := by
  by_cases hh : tex.mHeight = 0
  · refine ⟨(self.loadEmbeddedTexture P tex log).2.drop log.length, ?_, ?_, ?_, ?_⟩
    · rw [ModelLoader.loadEmbeddedTexture, if_neg (by simp [hh])]
      cases h : P.CreateWICTextureFromMemory log tex.pcData tex.mWidth <;> simp [h]
    · intro _
      rw [ModelLoader.loadEmbeddedTexture, if_neg (by simp [hh])]
      cases h : P.CreateWICTextureFromMemory log tex.pcData tex.mWidth <;>
        simp [h, Event.isEmbeddedDecode]
    · intro h; exact absurd hh h
    · intro h; exact absurd hh h
  · have hroute : ∃ new, (self.loadEmbeddedTexture P tex log).2 = log ++ new ∧
        new.filter Event.isEmbeddedDecode =
          [Event.CreateTexture2D
            { Width := tex.mWidth, Height := tex.mHeight, MipLevels := 1, ArraySize := 1,
              SampleCount := 1, SampleQuality := 0 }
            { pSysMem := tex.pcData, SysMemPitch := (tex.mWidth * 4) % 4294967296,
              SysMemSlicePitch := (tex.mWidth * tex.mHeight * 4) % 4294967296 }] := by
      refine ⟨(self.loadEmbeddedTexture P tex log).2.drop log.length, ?_, ?_⟩
      · rw [ModelLoader.loadEmbeddedTexture, if_pos (by simpa using hh)]
        dsimp only
        cases h1 : P.CreateTexture2D log _ _ <;>
          simp only [Option.isNone_none, Option.isNone_some, if_true, if_false] <;>
          cases h2 : P.CreateShaderResourceView _ _ <;> simp [h2]
      · rw [ModelLoader.loadEmbeddedTexture, if_pos (by simpa using hh)]
        dsimp only
        cases h1 : P.CreateTexture2D log _ _ <;>
          simp only [Option.isNone_none, Option.isNone_some, if_true, if_false] <;>
          cases h2 : P.CreateShaderResourceView _ _ <;>
            simp [h2, Event.isEmbeddedDecode, toUINT]
    obtain ⟨new, hnew, hfilter⟩ := hroute
    refine ⟨new, hnew, fun h => absurd h hh, fun _ => hfilter, fun _ hw => ?_⟩
    refine ⟨(tex.mWidth * tex.mHeight * 4) % 4294967296, ?_⟩
    rw [hfilter, Nat.mod_eq_of_lt (by omega)]

/-- Instance of C5: a raw embedded texture of 2 by 2 texels. -/
theorem loadEmbeddedTexture_routes_witness :
    ∃ new, (ModelLoader.ctor.loadEmbeddedTexture (examplePlatform false none true)
        { mWidth := 2, mHeight := 2, pcData := 5 } []).2 = [] ++ new ∧
      ∃ slice, new.filter Event.isEmbeddedDecode =
        [Event.CreateTexture2D
          { Width := 2, Height := 2, MipLevels := 1, ArraySize := 1, SampleCount := 1,
            SampleQuality := 0 }
          { pSysMem := 5, SysMemPitch := 2 * 4, SysMemSlicePitch := slice }] :=
  (loadEmbeddedTexture_routes (examplePlatform false none true) ModelLoader.ctor
    { mWidth := 2, mHeight := 2, pcData := 5 } []).elim
    (fun new h => ⟨new, h.1, h.2.2.2 (by decide) (by decide)⟩)

/-! ## Drawing -/

theorem Mesh_Draw_textured (m : Mesh) (log : List Event) (h : m.textures_ ≠ []) :
    m.Draw log = Outcome.ok () (log ++ m.drawCalls (m.indices_.length % 4294967296)) := by
  unfold Mesh.Draw Mesh.drawCalls
  cases ht : m.textures_ with
  | nil => exact absurd ht h
  | cons t rest => simp [toUINT]

/-- The draw loop over meshes that each hold a texture record. -/
theorem Draw_loop_textured (meshes : List Mesh) (log : List Event)
    (h : ∀ m ∈ meshes, m.textures_ ≠ []) :
    ModelLoader.Draw.loop meshes log =
      Outcome.ok () (log ++ meshes.flatMap
        (fun m => m.drawCalls (m.indices_.length % 4294967296))) := by
  induction meshes generalizing log with
  | nil => simp [ModelLoader.Draw.loop]
  | cons m rest ih =>
    rw [ModelLoader.Draw.loop, Mesh_Draw_textured m log (h m (List.mem_cons_self _ _))]
    simp only
    rw [ih _ (fun u hu => h u (List.mem_cons_of_mem _ hu))]
    simp [List.flatMap_cons]

theorem drawCalls_filter (meshes : List Mesh) (count : Mesh → Nat) :
    (meshes.flatMap (fun m => m.drawCalls (count m))).filter Event.isDrawIndexed =
      meshes.map (fun m => Event.DrawIndexed (count m)) := by
  induction meshes with
  | nil => rfl
  | cons m rest ih =>
    simp only [List.flatMap_cons, List.filter_append, ih, List.map_cons]
    simp [Mesh.drawCalls, Event.isDrawIndexed, List.filter]

theorem exampleHugeMesh_indices :
    exampleHugeMesh.indices_ = List.replicate 4294967296 0 := rfl

theorem exampleHugeMesh_textures :
    exampleHugeMesh.textures_ = [{ type := [], path := [], texture := some 7 }] := rfl

/-- C7, the claim fails: (a) with assertions compiled out, a mesh whose material
has no diffuse texture loads, and `Draw` then indexes the empty texture list and
issues no `DrawIndexed`; (b) for a mesh holding 2^32 indices `Draw` issues
`DrawIndexed` with index count 0. -/
theorem Draw_untextured_or_huge :
    (∃ s log, ModelLoader.Load
        (examplePlatform true (some (exampleScene [exampleTriangle] [])) true)
        ModelLoader.ctor (some 1) (some 2) (some 3) "a/model.obj".toList [] =
        Outcome.ok (true, s) log ∧
      s.meshes_.length = 1 ∧
      ∃ log1, s.Draw [] = Outcome.fault Fault.undefined log1 ∧
        log1.filter Event.isDrawIndexed = []) ∧
    (exampleHugeMesh.indices_.length = 4294967296 ∧
      ({ ModelLoader.ctor with meshes_ := [exampleHugeMesh] } : ModelLoader).Draw [] =
        Outcome.ok () (exampleHugeMesh.drawCalls 0)) := by
  refine ⟨⟨_, _, rfl, ?_, _, rfl, ?_⟩, ?_, ?_⟩
  · decide
  · decide
  · rw [exampleHugeMesh_indices, List.length_replicate]
  · have hd := Mesh_Draw_textured exampleHugeMesh []
      (by rw [exampleHugeMesh_textures]; exact List.cons_ne_nil _ _)
    rw [exampleHugeMesh_indices, List.length_replicate, Nat.mod_self] at hd
    unfold ModelLoader.Draw
    show ModelLoader.Draw.loop [exampleHugeMesh] [] = _
    rw [ModelLoader.Draw.loop, hd]
    simp only [ModelLoader.Draw.loop, List.nil_append]

/-! ## Texture resolution -/

theorem uploads_append (a b : List Event) : uploads (a ++ b) = uploads a ++ uploads b := by
  induction a with
  | nil => rfl
  | cons e rest ih => cases e <;> simp [uploads, ih]

theorem loadEmbeddedTexture_log (P : Platform) (self : ModelLoader) (tex : aiTexture)
    (log : List Event) :
    ∃ new, (self.loadEmbeddedTexture P tex log).2 = log ++ new ∧
      uploads new = [] ∧ new.filter Event.isCreateBuffer = [] ∧
      (new.filter Event.isDecode).length = 1 ∧
      ((self.loadEmbeddedTexture P tex log).1 = none →
        ∃ text, Event.MessageBox self.hwnd_ text ∈ new) := by
  by_cases hh : tex.mHeight = 0
  · rw [ModelLoader.loadEmbeddedTexture, if_neg (by simp [hh])]
    dsimp only
    cases h : P.CreateWICTextureFromMemory log tex.pcData tex.mWidth <;>
      simp only [Option.isNone_none, Option.isNone_some, Bool.false_eq_true, if_true, if_false,
        List.append_assoc, List.cons_append, List.nil_append] <;>
      refine ⟨_, rfl, rfl, rfl, rfl, ?_⟩ <;> simp
  · rw [ModelLoader.loadEmbeddedTexture, if_pos (by simpa using hh)]
    dsimp only
    cases h1 : P.CreateTexture2D log _ _ <;>
      simp only [Option.isNone_none, Option.isNone_some, Bool.false_eq_true, if_true,
        if_false] <;>
      cases h2 : P.CreateShaderResourceView _ _ <;>
      simp only [Option.isNone_none, Option.isNone_some, Bool.false_eq_true, if_true, if_false,
        List.append_assoc, List.cons_append, List.nil_append] <;>
      refine ⟨_, rfl, rfl, rfl, rfl, ?_⟩ <;> simp

theorem decode_log (P : Platform) (scene : aiScene) (str : Str) (self : ModelLoader)
    (log log' : List Event) (h : Option Handle)
    (hd : ModelLoader.loadMaterialTextures.decode P scene str self log = Outcome.ok h log') :
    ∃ new, log' = log ++ new ∧ uploads new = [str] ∧ new.filter Event.isCreateBuffer = [] ∧
      (new.filter Event.isDecode).length = 1 := by
  unfold ModelLoader.loadMaterialTextures.decode at hd
  dsimp only at hd
  split at hd
  · rename_i emb _
    obtain ⟨new, hnew, hu, hb, hdec, _⟩ :=
      loadEmbeddedTexture_log P self emb (log ++ [Event.GetEmbeddedTexture str])
    simp only [Outcome.ok.injEq] at hd
    refine ⟨Event.GetEmbeddedTexture str :: new, ?_, ?_, ?_, ?_⟩
    · rw [← hd.2, hnew]; simp
    · simp [uploads, hu]
    · simp [List.filter, Event.isCreateBuffer, hb]
    · simp [List.filter, Event.isDecode, hdec]
  · split at hd
    · simp only [Outcome.ok.injEq] at hd
      refine ⟨[Event.GetEmbeddedTexture str,
        Event.CreateWICTextureFromFile (self.directory_ ++ ['\\'] ++ str)], ?_, rfl, rfl, rfl⟩
      rw [← hd.2]; simp
    · split at hd
      · simp only [Outcome.ok.injEq] at hd
        refine ⟨[Event.GetEmbeddedTexture str,
          Event.CreateWICTextureFromFile (self.directory_ ++ ['\\'] ++ str),
          Event.MessageBox self.hwnd_ "Texture couldn't be loaded"], ?_, rfl, rfl, rfl⟩
        rw [← hd.2]; simp
      · simp at hd

theorem decode_total (P : Platform) (scene : aiScene) (str : Str) (self : ModelLoader)
    (log : List Event) (h : P.NDEBUG = true ∨ (scene.GetEmbeddedTexture str).isSome = true) :
    ∃ v log', ModelLoader.loadMaterialTextures.decode P scene str self log = Outcome.ok v log' := by
  unfold ModelLoader.loadMaterialTextures.decode
  dsimp only
  cases he : scene.GetEmbeddedTexture str with
  | some emb => exact ⟨_, _, rfl⟩
  | none =>
    have hN : P.NDEBUG = true := by
      rcases h with h | h
      · exact h
      · rw [he] at h; simp at h
    simp only [hN, if_true]
    split
    · exact ⟨_, _, rfl⟩
    · exact ⟨_, _, rfl⟩

theorem Cached_append (cache added : List Texture) (t : Texture) (h : Cached cache t) :
    Cached (cache ++ added) t := by
  unfold Cached at *
  rw [List.find?_append, h]
  rfl

theorem Resolved_refl (self : ModelLoader) (log : List Event) : Resolved self log self log :=
  ⟨[], by simp, by simp, by simp, rfl, by simp⟩

theorem Resolved_trans {s1 s2 s3 : ModelLoader} {l1 l2 l3 : List Event}
    (h12 : Resolved s1 l1 s2 l2) (h23 : Resolved s2 l2 s3 l3) : Resolved s1 l1 s3 l3 := by
  obtain ⟨a1, e1, u1, d1, b1, n1⟩ := h12
  obtain ⟨a2, e2, u2, d2, b2, n2⟩ := h23
  subst e1
  refine ⟨a1 ++ a2, ?_, ?_, ?_, ?_, ?_⟩
  · rw [e2]; simp
  · rw [u2, u1]; simp
  · rw [d2, d1]; simp; omega
  · rw [b2, b1]
  · intro hn
    have := n2 (n1 hn)
    simpa using this

/-- A slot that returns has resolved one record for its identifier, and that
record is the one the cache now holds for the identifier. -/
theorem slot_ok (P : Platform) (scene : aiScene) (str : Str) (textures : List Texture)
    (self : ModelLoader) (log log' : List Event) (r : List Texture × ModelLoader)
    (h : ModelLoader.loadMaterialTextures.slot P scene str textures self log = Outcome.ok r log') :
    Resolved self log r.2 log' ∧
    ∃ t, t.path = str ∧ r.1 = textures ++ [t] ∧ Cached r.2.textures_loaded_ t := by
  unfold ModelLoader.loadMaterialTextures.slot at h
  split at h
  · rename_i t hfind
    simp only [Outcome.ok.injEq] at h
    obtain ⟨hr, hl⟩ := h
    subst hr hl
    have hp : t.path = str := by
      have := List.find?_some hfind
      simpa using this
    refine ⟨Resolved_refl _ _, t, hp, rfl, ?_⟩
    unfold Cached
    rw [hp]
    exact hfind
  · rename_i hfind
    split at h
    · simp at h
    · rename_i v log1 hdec
      simp only [Outcome.ok.injEq] at h
      obtain ⟨hr, hl⟩ := h
      subst hr hl
      obtain ⟨new, hnew, hu, hb, hd⟩ := decode_log P scene str self log log1 v hdec
      refine ⟨⟨[{ type := [], path := str, texture := v }], rfl, ?_, ?_, ?_, ?_⟩,
        { type := [], path := str, texture := v }, rfl, rfl, ?_⟩
      · rw [hnew, uploads_append, hu]; rfl
      · rw [hnew, List.filter_append, List.length_append, hd]; rfl
      · rw [hnew, List.filter_append, hb, List.append_nil]
      · intro hn
        rw [List.map_append, List.nodup_append]
        refine ⟨hn, by simp, ?_⟩
        intro p hp1 hp2
        simp only [List.map_cons, List.map_nil, List.mem_singleton] at hp2
        subst hp2
        obtain ⟨u, hu1, hu2⟩ := List.mem_map.mp hp1
        have := List.find?_eq_none.mp hfind u hu1
        simp [hu2] at this
      · unfold Cached
        simp only
        rw [List.find?_append, hfind]
        simp

/-- A slot loop that returns has appended one record per identifier, in order,
each the record the cache holds for its path. -/
theorem loop_ok (P : Platform) (scene : aiScene) (ids : List Str) :
    ∀ (textures : List Texture) (self : ModelLoader) (log log' : List Event)
      (r : List Texture × ModelLoader),
      ModelLoader.loadMaterialTextures.loop P scene ids textures self log = Outcome.ok r log' →
      Resolved self log r.2 log' ∧
      ∃ new, r.1 = textures ++ new ∧ new.map Texture.path = ids ∧
        ∀ t ∈ new, Cached r.2.textures_loaded_ t := by
  induction ids with
  | nil =>
    intro textures self log log' r h
    simp only [ModelLoader.loadMaterialTextures.loop, Outcome.ok.injEq] at h
    obtain ⟨hr, hl⟩ := h
    subst hr hl
    exact ⟨Resolved_refl _ _, [], by simp, rfl, by simp⟩
  | cons str rest ih =>
    intro textures self log log' r h
    rw [ModelLoader.loadMaterialTextures.loop] at h
    split at h
    · rename_i r1 log1 hslot
      obtain ⟨hres1, t, hp, ht, hc⟩ := slot_ok P scene str textures self log log1 r1 hslot
      obtain ⟨hres2, new, hn, hm, hcs⟩ := ih r1.1 r1.2 log1 log' r h
      refine ⟨Resolved_trans hres1 hres2, t :: new, ?_, ?_, ?_⟩
      · rw [hn, ht]; simp
      · simp [hp, hm]
      · intro u hu
        rcases List.mem_cons.mp hu with rfl | hu
        · obtain ⟨added, e, _⟩ := hres2
          rw [e]
          exact Cached_append _ _ _ hc
        · exact hcs u hu
    · simp at h

/-- The slot loop returns when assertions are compiled out or every identifier
names an embedded texture. -/
theorem loop_total (P : Platform) (scene : aiScene) (ids : List Str)
    (h : P.NDEBUG = true ∨ ∀ str ∈ ids, (scene.GetEmbeddedTexture str).isSome = true) :
    ∀ (textures : List Texture) (self : ModelLoader) (log : List Event),
      ∃ r log', ModelLoader.loadMaterialTextures.loop P scene ids textures self log =
        Outcome.ok r log' := by
  induction ids with
  | nil => intro textures self log; exact ⟨_, _, rfl⟩
  | cons str rest ih =>
    intro textures self log
    have hrest : P.NDEBUG = true ∨ ∀ s ∈ rest, (scene.GetEmbeddedTexture s).isSome = true := by
      rcases h with h | h
      · exact Or.inl h
      · exact Or.inr (fun s hs => h s (List.mem_cons_of_mem _ hs))
    have hstr : P.NDEBUG = true ∨ (scene.GetEmbeddedTexture str).isSome = true := by
      rcases h with h | h
      · exact Or.inl h
      · exact Or.inr (h str (List.mem_cons_self _ _))
    have hslot : ∃ r1 log1,
        ModelLoader.loadMaterialTextures.slot P scene str textures self log =
          Outcome.ok r1 log1 := by
      unfold ModelLoader.loadMaterialTextures.slot
      cases hf : self.textures_loaded_.find? (fun t => t.path == str) with
      | some t => exact ⟨_, _, rfl⟩
      | none =>
        obtain ⟨v, log1, hd⟩ := decode_total P scene str self log hstr
        simp only [hd]
        exact ⟨_, _, rfl⟩
    obtain ⟨r1, log1, hs⟩ := hslot
    rw [ModelLoader.loadMaterialTextures.loop, hs]
    exact ih hrest r1.1 r1.2 log1

/-- A completed sequence of calls: every returned list has one record per slot
of its material, each the record the final cache holds for its path. -/
theorem calls_ok (P : Platform) (scene : aiScene) (mats : List aiMaterial) :
    ∀ (self : ModelLoader) (log log' : List Event) (r : List (List Texture) × ModelLoader),
      ModelLoader.loadMaterialTextures.calls P scene mats self log = Outcome.ok r log' →
      Resolved self log r.2 log' ∧
      List.Forall₂ (fun mat res => res.map Texture.path = mat.GetTexture aiTextureType.DIFFUSE ∧
        ∀ t ∈ res, Cached r.2.textures_loaded_ t) mats r.1 := by
  induction mats with
  | nil =>
    intro self log log' r h
    simp only [ModelLoader.loadMaterialTextures.calls, Outcome.ok.injEq] at h
    obtain ⟨hr, hl⟩ := h
    subst hr hl
    exact ⟨Resolved_refl _ _, List.Forall₂.nil⟩
  | cons mat rest ih =>
    intro self log log' r h
    rw [ModelLoader.loadMaterialTextures.calls] at h
    split at h
    · simp at h
    · rename_i r1 log1 hload
      split at h
      · simp at h
      · rename_i rs log2 hrest
        simp only [Outcome.ok.injEq] at h
        obtain ⟨hr, hl⟩ := h
        subst hr hl
        obtain ⟨hres1, new, hn, hm, hc⟩ := loop_ok P scene _ [] self log log1 r1 hload
        obtain ⟨hres2, hall⟩ := ih r1.2 log1 log2 rs hrest
        refine ⟨Resolved_trans hres1 hres2, List.Forall₂.cons ⟨?_, ?_⟩ hall⟩
        · rw [hn]; simpa using hm
        · intro t ht
          obtain ⟨added, e, _⟩ := hres2
          simp only
          rw [e]
          apply Cached_append
          apply hc
          rw [hn] at ht
          simpa using ht

theorem forall₂_getElem? {α β : Type} {R : α → β → Prop} {l1 : List α} {l2 : List β}
    (h : List.Forall₂ R l1 l2) (i : Nat) (a : α) (ha : l1[i]? = some a) :
    ∃ b, l2[i]? = some b ∧ R a b := by
  induction h generalizing i with
  | nil => simp at ha
  | cons hab _ ih =>
    cases i with
    | zero =>
      simp only [List.getElem?_cons_zero, Option.some.injEq] at ha
      subst ha
      exact ⟨_, by simp, hab⟩
    | succ n =>
      simp only [List.getElem?_cons_succ] at ha
      obtain ⟨b, hb, hr⟩ := ih n ha
      exact ⟨b, by simpa using hb, hr⟩

/-- In a cache with pairwise distinct paths the record found for a path is the
only one with that path. -/
theorem filter_of_find (cache : List Texture) (id : Str) (t : Texture)
    (hn : (cache.map Texture.path).Nodup)
    (hf : cache.find? (fun u => u.path == id) = some t) :
    cache.filter (fun u => u.path == id) = [t] := by
  induction cache with
  | nil => simp at hf
  | cons u rest ih =>
    simp only [List.map_cons, List.nodup_cons] at hn
    by_cases hu : u.path = id
    · have hut : u = t := by simpa [List.find?, hu] using hf
      subst hut
      have hnil : rest.filter (fun v => v.path == id) = [] := by
        rw [List.filter_eq_nil_iff]
        intro v hv hp
        have : v.path = id := by simpa using hp
        exact hn.1 (List.mem_map.mpr ⟨v, hv, by rw [this, hu]⟩)
      simp [List.filter, hu, hnil]
    · have hb : (u.path == id) = false := by simpa using hu
      have hf' : rest.find? (fun v => v.path == id) = some t := by
        simpa only [List.find?_cons, hb] using hf
      rw [List.filter_cons, hb]
      exact ih hn.2 hf'

theorem count_of_nodup (l : List Str) (id : Str) (hn : l.Nodup) (hm : id ∈ l) :
    l.count id = 1 := by
  induction l with
  | nil => simp at hm
  | cons x rest ih =>
    simp only [List.nodup_cons] at hn
    rw [List.count_cons]
    by_cases hx : x = id
    · subst hx
      have h0 : List.count x rest = 0 := List.count_eq_zero_of_not_mem hn.1
      simp [h0]
    · have hm' : id ∈ rest := by
        rcases List.mem_cons.mp hm with h | h
        · exact absurd h.symm hx
        · exact h
      simp [ih hn.2 hm', hx]

theorem record_at (res : List Texture) (ids : List Str) (a : Nat) (id : Str)
    (hm : res.map Texture.path = ids) (ha : ids[a]? = some id) :
    ∃ t, res[a]? = some t ∧ t.path = id ∧ t ∈ res := by
  rw [← hm, List.getElem?_map] at ha
  cases ht : res[a]? with
  | none => simp [ht] at ha
  | some t =>
    simp only [ht, Option.map_some', Option.some.injEq] at ha
    exact ⟨t, rfl, ha, List.getElem?_mem ht⟩

/-- C2: after any completed sequence of `loadMaterialTextures` calls that starts
from an empty cache, if slot `a` of the `i`-th material and slot `b` of the
`j`-th material report the same identifier, then both calls returned the same
record for it, the cache holds that record and no other with that path, the
miss branch (embedded lookup, decode, cache insertion) ran exactly once for the
identifier, and the whole sequence made one decode call per cache entry. -/
theorem loadMaterialTextures_shares_texture (P : Platform) (scene : aiScene)
    (mats : List aiMaterial) (self self' : ModelLoader) (log log' : List Event)
    (results : List (List Texture)) (i j a b : Nat) (mi mj : aiMaterial) (id : Str)
    (hempty : self.textures_loaded_ = [])
    (hrun : ModelLoader.loadMaterialTextures.calls P scene mats self log =
      Outcome.ok (results, self') log')
    (hi : mats[i]? = some mi) (ha : (mi.GetTexture aiTextureType.DIFFUSE)[a]? = some id)
    (hj : mats[j]? = some mj) (hb : (mj.GetTexture aiTextureType.DIFFUSE)[b]? = some id) :
    ∃ ri rj t, results[i]? = some ri ∧ results[j]? = some rj ∧
      ri[a]? = some t ∧ rj[b]? = some t ∧ t.path = id ∧
      self'.textures_loaded_.filter (fun u => u.path == id) = [t] ∧
      (uploads log').count id = (uploads log).count id + 1 ∧
      (log'.filter Event.isDecode).length =
        (log.filter Event.isDecode).length + self'.textures_loaded_.length := by
  obtain ⟨⟨added, e, hu, hd, _, hn⟩, hall⟩ := calls_ok P scene mats self log log' _ hrun
  simp only at e hall
  have hcache : self'.textures_loaded_ = added := by rw [e]; simp [hempty]
  have hnodup : (self'.textures_loaded_.map Texture.path).Nodup := by
    rw [hcache]
    have := hn (by simp [hempty])
    simpa [hempty] using this
  obtain ⟨ri, hri, hmi, hci⟩ := forall₂_getElem? hall i mi hi
  obtain ⟨rj, hrj, hmj, hcj⟩ := forall₂_getElem? hall j mj hj
  obtain ⟨ti, hti, hpi, hmemi⟩ := record_at ri _ a id hmi ha
  obtain ⟨tj, htj, hpj, hmemj⟩ := record_at rj _ b id hmj hb
  have hfi := hci ti hmemi
  have hfj := hcj tj hmemj
  unfold Cached at hfi hfj
  rw [hpi] at hfi
  rw [hpj] at hfj
  have hij : ti = tj := by
    rw [hfi] at hfj
    exact Option.some.inj hfj
  subst hij
  have hmem : id ∈ self'.textures_loaded_.map Texture.path :=
    List.mem_map.mpr ⟨ti, List.mem_of_find?_eq_some hfi, hpi⟩
  refine ⟨ri, rj, ti, hri, hrj, hti, htj, hpi, filter_of_find _ _ _ hnodup hfi, ?_, ?_⟩
  · rw [hu, List.count_append, ← hcache, count_of_nodup _ _ hnodup hmem]
  · rw [hd, hcache]

/-- Instance of C2: two materials that both name `tex.png`, resolved on a fresh
loader. -/
theorem loadMaterialTextures_shares_texture_witness :
    ∃ ri rj t,
      [[({ type := [], path := "tex.png".toList, texture := some 40 } : Texture)],
        [{ type := [], path := "tex.png".toList, texture := some 40 }]][0]? = some ri ∧
      [[({ type := [], path := "tex.png".toList, texture := some 40 } : Texture)],
        [{ type := [], path := "tex.png".toList, texture := some 40 }]][1]? = some rj ∧
      ri[0]? = some t ∧ rj[0]? = some t ∧ t.path = "tex.png".toList ∧
      ({ ModelLoader.ctor with textures_loaded_ :=
          [{ type := [], path := "tex.png".toList, texture := some 40 }] } :
        ModelLoader).textures_loaded_.filter (fun u => u.path == "tex.png".toList) = [t] ∧
      (uploads [Event.GetEmbeddedTexture "tex.png".toList,
        Event.CreateWICTextureFromFile "\\tex.png".toList]).count "tex.png".toList =
        (uploads []).count "tex.png".toList + 1 ∧
      ([Event.GetEmbeddedTexture "tex.png".toList,
        Event.CreateWICTextureFromFile "\\tex.png".toList].filter Event.isDecode).length =
        (([] : List Event).filter Event.isDecode).length +
          ({ ModelLoader.ctor with textures_loaded_ :=
            [{ type := [], path := "tex.png".toList, texture := some 40 }] } :
          ModelLoader).textures_loaded_.length :=
  loadMaterialTextures_shares_texture (examplePlatform false none true) (exampleScene [] [])
    [exampleMaterial ["tex.png".toList], exampleMaterial ["tex.png".toList]]
    ModelLoader.ctor _ [] _ _ 0 1 0 0
    (exampleMaterial ["tex.png".toList]) (exampleMaterial ["tex.png".toList]) "tex.png".toList
    rfl (by decide) rfl rfl rfl rfl

/-- C8, the claim fails: (a) with assertions enabled, a failed file decode of the
first of two slots stops `loadMaterialTextures` at `assert(false)`: no record is
returned or cached, no message box is shown and the second slot is not
processed; (b) with assertions compiled out, the record of a failed file decode
carries the pointer the helper left in the uninitialised `texture.texture`,
here the non-null 99. -/
theorem loadMaterialTextures_file_failure_asserts :
    ModelLoader.ctor.loadMaterialTextures (examplePlatform false none false)
        (exampleMaterial ["a.png".toList, "b.png".toList]) aiTextureType.DIFFUSE
        (exampleScene [] []) [] =
      Outcome.fault Fault.assertion
        [Event.GetEmbeddedTexture "a.png".toList,
         Event.CreateWICTextureFromFile "\\a.png".toList] ∧
    exampleLoader.loadMaterialTextures (exampleBrokenPlatform true (some 99))
        (exampleMaterial ["a.png".toList]) aiTextureType.DIFFUSE (exampleScene [] []) [] =
      Outcome.ok
        ([{ type := [], path := "a.png".toList, texture := some 99 }],
         { exampleLoader with textures_loaded_ :=
            [{ type := [], path := "a.png".toList, texture := some 99 }] })
        [Event.GetEmbeddedTexture "a.png".toList,
         Event.CreateWICTextureFromFile "models\\a.png".toList,
         Event.MessageBox (some 1) "Texture couldn't be loaded"] := by
  constructor <;> decide

/-- C8, amended: for a slot whose identifier misses the cache, a failed decode
is not fatal when assertions are compiled out (`NDEBUG`) or the identifier names
an embedded texture. The slot appends one record, with the identifier as path,
to both the returned list and `textures_loaded_`, after a message box:
(A) when `CreateWICTextureFromFile` fails under `NDEBUG`, the record carries the
pointer the helper left in `texture.texture` (null when the helper nulls it) and
the log gains the lookup, the decode call and the message box;
(B) when `CreateWICTextureFromMemory` fails, the record carries a null handle;
(C) when, for a raw embedded texture, `CreateShaderResourceView` fails (after a
successful or a failed `CreateTexture2D`, the latter with its own message box),
the record carries a null handle.
(D) Under the same condition on every slot, `loadMaterialTextures` returns, with
one record per slot in slot order. -/
theorem loadMaterialTextures_decode_failure_nonfatal (P : Platform) (scene : aiScene) :
    (∀ (str : Str) (textures : List Texture) (self : ModelLoader) (log : List Event),
      self.textures_loaded_.find? (fun t => t.path == str) = none →
      scene.GetEmbeddedTexture str = none →
      P.NDEBUG = true →
      (P.CreateWICTextureFromFile (log ++ [Event.GetEmbeddedTexture str])
        (self.directory_ ++ ['\\'] ++ str)).succeeded = false →
      ModelLoader.loadMaterialTextures.slot P scene str textures self log =
        Outcome.ok
          (textures ++
            [{ type := [], path := str,
               texture := (P.CreateWICTextureFromFile (log ++ [Event.GetEmbeddedTexture str])
                 (self.directory_ ++ ['\\'] ++ str)).textureView }],
           { self with textures_loaded_ := self.textures_loaded_ ++
              [{ type := [], path := str,
                 texture := (P.CreateWICTextureFromFile (log ++ [Event.GetEmbeddedTexture str])
                   (self.directory_ ++ ['\\'] ++ str)).textureView }] })
          (log ++ [Event.GetEmbeddedTexture str,
            Event.CreateWICTextureFromFile (self.directory_ ++ ['\\'] ++ str),
            Event.MessageBox self.hwnd_ "Texture couldn't be loaded"])) ∧
    (∀ (str : Str) (textures : List Texture) (self : ModelLoader) (log : List Event)
        (tex : aiTexture),
      self.textures_loaded_.find? (fun t => t.path == str) = none →
      scene.GetEmbeddedTexture str = some tex →
      tex.mHeight = 0 →
      P.CreateWICTextureFromMemory (log ++ [Event.GetEmbeddedTexture str]) tex.pcData
        tex.mWidth = none →
      ModelLoader.loadMaterialTextures.slot P scene str textures self log =
        Outcome.ok
          (textures ++ [{ type := [], path := str, texture := none }],
           { self with textures_loaded_ := self.textures_loaded_ ++
              [{ type := [], path := str, texture := none }] })
          (log ++ [Event.GetEmbeddedTexture str,
            Event.CreateWICTextureFromMemory tex.pcData tex.mWidth,
            Event.MessageBox self.hwnd_ "Texture couldn't be created from memory!"])) ∧
    (∀ (str : Str) (textures : List Texture) (self : ModelLoader) (log : List Event)
        (tex : aiTexture) (texture2D : Option Handle),
      self.textures_loaded_.find? (fun t => t.path == str) = none →
      scene.GetEmbeddedTexture str = some tex →
      tex.mHeight ≠ 0 →
      P.CreateTexture2D (log ++ [Event.GetEmbeddedTexture str])
        { Width := tex.mWidth, Height := tex.mHeight, MipLevels := 1, ArraySize := 1,
          SampleCount := 1, SampleQuality := 0 }
        { pSysMem := tex.pcData, SysMemPitch := toUINT (tex.mWidth * 4),
          SysMemSlicePitch := toUINT (tex.mWidth * tex.mHeight * 4) } = texture2D →
      P.CreateShaderResourceView
        (log ++ [Event.GetEmbeddedTexture str] ++
          (Event.CreateTexture2D
            { Width := tex.mWidth, Height := tex.mHeight, MipLevels := 1, ArraySize := 1,
              SampleCount := 1, SampleQuality := 0 }
            { pSysMem := tex.pcData, SysMemPitch := toUINT (tex.mWidth * 4),
              SysMemSlicePitch := toUINT (tex.mWidth * tex.mHeight * 4) } ::
            (if texture2D.isNone then
              [Event.MessageBox self.hwnd_ "CreateTexture2D failed!"] else [])))
        texture2D = none →
      ModelLoader.loadMaterialTextures.slot P scene str textures self log =
        Outcome.ok
          (textures ++ [{ type := [], path := str, texture := none }],
           { self with textures_loaded_ := self.textures_loaded_ ++
              [{ type := [], path := str, texture := none }] })
          (log ++ [Event.GetEmbeddedTexture str] ++
            (Event.CreateTexture2D
              { Width := tex.mWidth, Height := tex.mHeight, MipLevels := 1, ArraySize := 1,
                SampleCount := 1, SampleQuality := 0 }
              { pSysMem := tex.pcData, SysMemPitch := toUINT (tex.mWidth * 4),
                SysMemSlicePitch := toUINT (tex.mWidth * tex.mHeight * 4) } ::
              (if texture2D.isNone then
                [Event.MessageBox self.hwnd_ "CreateTexture2D failed!"] else [])) ++
            [Event.CreateShaderResourceView texture2D,
             Event.MessageBox self.hwnd_ "CreateShaderResourceView failed!"])) ∧
    (∀ (self : ModelLoader) (mat : aiMaterial) (type : aiTextureType) (log : List Event),
      (P.NDEBUG = true ∨
        ∀ str ∈ mat.GetTexture type, (scene.GetEmbeddedTexture str).isSome = true) →
      ∃ res self' log',
        self.loadMaterialTextures P mat type scene log = Outcome.ok (res, self') log' ∧
        res.map Texture.path = mat.GetTexture type) := by
  refine ⟨?_, ?_, ?_, ?_⟩
  · intro str textures self log hmiss hemb hN hfail
    unfold ModelLoader.loadMaterialTextures.slot
    rw [hmiss]
    simp only [ModelLoader.loadMaterialTextures.decode, hemb, hN, hfail, Bool.false_eq_true,
      if_false, if_true]
    simp
  · intro str textures self log tex hmiss hemb hh hfail
    unfold ModelLoader.loadMaterialTextures.slot
    rw [hmiss]
    simp only [ModelLoader.loadMaterialTextures.decode, hemb]
    rw [ModelLoader.loadEmbeddedTexture, if_neg (by simp [hh])]
    simp [hfail]
  · intro str textures self log tex texture2D hmiss hemb hh ht2d hsrv
    unfold ModelLoader.loadMaterialTextures.slot
    rw [hmiss]
    simp only [ModelLoader.loadMaterialTextures.decode, hemb]
    rw [ModelLoader.loadEmbeddedTexture, if_pos (by simpa using hh)]
    dsimp only
    rw [ht2d]
    cases texture2D with
    | none =>
      simp only [Option.isNone_none, if_true, List.append_assoc, List.cons_append,
        List.nil_append] at hsrv ⊢
      rw [hsrv]
      simp
    | some t =>
      simp only [Option.isNone_some, Bool.false_eq_true, if_false, List.append_assoc,
        List.cons_append, List.nil_append] at hsrv ⊢
      rw [hsrv]
      simp
  · intro self mat type log hcond
    obtain ⟨r, log', hr⟩ := loop_total P scene (mat.GetTexture type) hcond [] self log
    obtain ⟨_, new, hn, hm, _⟩ := loop_ok P scene _ [] self log log' r hr
    refine ⟨r.1, r.2, log', hr, ?_⟩
    rw [hn]
    simpa using hm

/-- Instance of C8 on a loader that holds a device: a failed file decode with
assertions compiled out, a failed memory decode and a failed raw decode with
assertions enabled, and a material of two slots whose file decodes fail. -/
theorem loadMaterialTextures_decode_failure_nonfatal_witness :
    (ModelLoader.loadMaterialTextures.slot (exampleBrokenPlatform true none)
        (exampleScene [] []) "a.png".toList [] exampleLoader [] =
      Outcome.ok
        ([{ type := [], path := "a.png".toList, texture := none }],
         { exampleLoader with textures_loaded_ :=
            [{ type := [], path := "a.png".toList, texture := none }] })
        [Event.GetEmbeddedTexture "a.png".toList,
         Event.CreateWICTextureFromFile "models\\a.png".toList,
         Event.MessageBox (some 1) "Texture couldn't be loaded"]) ∧
    (ModelLoader.loadMaterialTextures.slot (exampleBrokenPlatform false none)
        (exampleEmbeddedScene { mWidth := 16, mHeight := 0, pcData := 5 }) "*0".toList []
        exampleLoader [] =
      Outcome.ok
        ([{ type := [], path := "*0".toList, texture := none }],
         { exampleLoader with textures_loaded_ :=
            [{ type := [], path := "*0".toList, texture := none }] })
        [Event.GetEmbeddedTexture "*0".toList,
         Event.CreateWICTextureFromMemory 5 16,
         Event.MessageBox (some 1) "Texture couldn't be created from memory!"]) ∧
    (ModelLoader.loadMaterialTextures.slot (exampleBrokenPlatform false none)
        (exampleEmbeddedScene { mWidth := 2, mHeight := 2, pcData := 5 }) "*0".toList []
        exampleLoader [] =
      Outcome.ok
        ([{ type := [], path := "*0".toList, texture := none }],
         { exampleLoader with textures_loaded_ :=
            [{ type := [], path := "*0".toList, texture := none }] })
        [Event.GetEmbeddedTexture "*0".toList,
         Event.CreateTexture2D
           { Width := 2, Height := 2, MipLevels := 1, ArraySize := 1, SampleCount := 1,
             SampleQuality := 0 }
           { pSysMem := 5, SysMemPitch := 8, SysMemSlicePitch := 16 },
         Event.MessageBox (some 1) "CreateTexture2D failed!",
         Event.CreateShaderResourceView none,
         Event.MessageBox (some 1) "CreateShaderResourceView failed!"]) ∧
    (∃ res self' log',
      exampleLoader.loadMaterialTextures (exampleBrokenPlatform true none)
          (exampleMaterial ["a.png".toList, "b.png".toList]) aiTextureType.DIFFUSE
          (exampleScene [] []) [] = Outcome.ok (res, self') log' ∧
      res.map Texture.path = ["a.png".toList, "b.png".toList]) :=
  ⟨(loadMaterialTextures_decode_failure_nonfatal (exampleBrokenPlatform true none)
      (exampleScene [] [])).1 "a.png".toList [] exampleLoader [] rfl rfl rfl rfl,
   (loadMaterialTextures_decode_failure_nonfatal (exampleBrokenPlatform false none)
      (exampleEmbeddedScene { mWidth := 16, mHeight := 0, pcData := 5 })).2.1
      "*0".toList [] exampleLoader [] { mWidth := 16, mHeight := 0, pcData := 5 }
      rfl rfl rfl rfl,
   (loadMaterialTextures_decode_failure_nonfatal (exampleBrokenPlatform false none)
      (exampleEmbeddedScene { mWidth := 2, mHeight := 2, pcData := 5 })).2.2.1
      "*0".toList [] exampleLoader [] { mWidth := 2, mHeight := 2, pcData := 5 } none
      rfl rfl (by decide) rfl rfl,
   (loadMaterialTextures_decode_failure_nonfatal (exampleBrokenPlatform true none)
      (exampleScene [] [])).2.2.2 exampleLoader
      (exampleMaterial ["a.png".toList, "b.png".toList]) aiTextureType.DIFFUSE []
      (Or.inl rfl)⟩

/-! ## Mesh conversion -/

theorem decode_fault (P : Platform) (scene : aiScene) (str : Str) (self : ModelLoader)
    (log log' : List Event) (f : Fault)
    (hd : ModelLoader.loadMaterialTextures.decode P scene str self log = Outcome.fault f log') :
    f = Fault.assertion ∧
      log'.filter Event.isCreateBuffer = log.filter Event.isCreateBuffer := by
  unfold ModelLoader.loadMaterialTextures.decode at hd
  dsimp only at hd
  split at hd
  · simp at hd
  · split at hd
    · simp at hd
    · split at hd
      · simp at hd
      · simp only [Outcome.fault.injEq] at hd
        refine ⟨hd.1.symm, ?_⟩
        rw [← hd.2]
        simp [List.filter_append, List.filter, Event.isCreateBuffer]

theorem slot_fault (P : Platform) (scene : aiScene) (str : Str) (textures : List Texture)
    (self : ModelLoader) (log log' : List Event) (f : Fault)
    (h : ModelLoader.loadMaterialTextures.slot P scene str textures self log =
      Outcome.fault f log') :
    f = Fault.assertion ∧
      log'.filter Event.isCreateBuffer = log.filter Event.isCreateBuffer := by
  unfold ModelLoader.loadMaterialTextures.slot at h
  split at h
  · simp at h
  · split at h
    · rename_i f1 log1 hdec
      simp only [Outcome.fault.injEq] at h
      rw [← h.1, ← h.2]
      exact decode_fault P scene str self log log1 f1 hdec
    · simp at h

/-- A slot loop that faults failed an assertion and created no buffer. -/
theorem loop_fault (P : Platform) (scene : aiScene) (ids : List Str) :
    ∀ (textures : List Texture) (self : ModelLoader) (log log' : List Event) (f : Fault),
      ModelLoader.loadMaterialTextures.loop P scene ids textures self log =
        Outcome.fault f log' →
      f = Fault.assertion ∧
        log'.filter Event.isCreateBuffer = log.filter Event.isCreateBuffer := by
  induction ids with
  | nil =>
    intro textures self log log' f h
    simp [ModelLoader.loadMaterialTextures.loop] at h
  | cons str rest ih =>
    intro textures self log log' f h
    rw [ModelLoader.loadMaterialTextures.loop] at h
    split at h
    · rename_i r1 log1 hslot
      obtain ⟨⟨_, _, _, _, hb, _⟩, _⟩ := slot_ok P scene str textures self log log1 r1 hslot
      obtain ⟨hf, hb2⟩ := ih r1.1 r1.2 log1 log' f h
      exact ⟨hf, by rw [hb2, hb]⟩
    · rename_i f1 log1 hslot
      simp only [Outcome.fault.injEq] at h
      rw [← h.1, ← h.2]
      exact slot_fault P scene str textures self log log1 f1 hslot

theorem vertexLoop_nil (mesh : aiMesh) (i : Nat) (acc : List VERTEX) :
    ModelLoader.processMesh.vertexLoop mesh [] i acc = acc := rfl

/-- C4, the claim fails: (a) with assertions enabled, a mesh with one vertex and
no face passes the constructor's assertion and `setupMesh` calls `CreateBuffer`
twice, the second time for the empty index list with `ByteWidth` 0; (b) with
assertions compiled out, a mesh with no vertex reaches `CreateBuffer` with
`ByteWidth` 0 for the empty vertex list. -/
theorem processMesh_empty_geometry_reaches_CreateBuffer :
    (ModelLoader.processMesh.indexLoop exampleNoFaces = [] ∧
      ∃ r log, ModelLoader.ctor.processMesh (examplePlatform false none true) exampleNoFaces
          (exampleScene [exampleNoFaces] ["tex.png".toList]) [] = Outcome.ok r log ∧
        log.filter Event.isCreateBuffer =
          [Event.CreateBuffer ⟨20, BindFlag.D3D11_BIND_VERTEX_BUFFER⟩,
           Event.CreateBuffer ⟨0, BindFlag.D3D11_BIND_INDEX_BUFFER⟩]) ∧
    (ModelLoader.processMesh.vertexLoop exampleNoVertices exampleNoVertices.mVertices 0 [] = [] ∧
      ∃ r log, ModelLoader.ctor.processMesh (examplePlatform true none true) exampleNoVertices
          (exampleScene [exampleNoVertices] ["tex.png".toList]) [] = Outcome.ok r log ∧
        log.filter Event.isCreateBuffer =
          [Event.CreateBuffer ⟨0, BindFlag.D3D11_BIND_VERTEX_BUFFER⟩,
           Event.CreateBuffer ⟨12, BindFlag.D3D11_BIND_INDEX_BUFFER⟩]) := by
  refine ⟨⟨by decide, _, _, rfl, by decide⟩, ⟨by decide, _, _, rfl, by decide⟩⟩

/-- C4, amended: with assertions enabled, `processMesh` on a mesh with zero
vertices does not return a mesh: it stops with a fault, an assertion failure
whenever the material index is in range, and makes no `CreateBuffer` call. -/
theorem processMesh_no_vertices_rejected (P : Platform) (self : ModelLoader) (mesh : aiMesh)
    (scene : aiScene) (log : List Event) (hdebug : P.NDEBUG = false)
    (hempty : mesh.mVertices = []) :
    ∃ f log', self.processMesh P mesh scene log = Outcome.fault f log' ∧
      log'.filter Event.isCreateBuffer = log.filter Event.isCreateBuffer ∧
      (mesh.mMaterialIndex < scene.mMaterials.length → f = Fault.assertion) := by
  unfold ModelLoader.processMesh
  dsimp only
  cases hmat : scene.mMaterials[mesh.mMaterialIndex]? with
  | none =>
    refine ⟨_, _, rfl, rfl, ?_⟩
    intro hlt
    rw [List.getElem?_eq_none_iff] at hmat
    omega
  | some material =>
    simp only
    cases hload : self.loadMaterialTextures P material aiTextureType.DIFFUSE scene log with
    | fault f log1 =>
      simp only
      obtain ⟨hf, hb⟩ := loop_fault P scene _ [] self log log1 f hload
      exact ⟨_, _, rfl, hb, fun _ => hf⟩
    | ok r log1 =>
      obtain ⟨⟨_, _, _, _, hb, _⟩, _⟩ := loop_ok P scene _ [] self log log1 r hload
      simp only [hdebug, hempty, vertexLoop_nil, Mesh.ctor]
      by_cases hr : r.1.isEmpty = true
      · simp only [hr]
        exact ⟨_, _, rfl, hb, fun _ => rfl⟩
      · simp only [hr]
        exact ⟨_, _, rfl, hb, fun _ => rfl⟩

/-- Instance of C4: the mesh without vertices, assertions enabled. -/
theorem processMesh_no_vertices_rejected_witness :
    ∃ f log', ModelLoader.ctor.processMesh (examplePlatform false none true) exampleNoVertices
        (exampleScene [exampleNoVertices] ["tex.png".toList]) [] = Outcome.fault f log' ∧
      log'.filter Event.isCreateBuffer = ([] : List Event).filter Event.isCreateBuffer ∧
      f = Fault.assertion :=
  (processMesh_no_vertices_rejected (examplePlatform false none true) ModelLoader.ctor
    exampleNoVertices (exampleScene [exampleNoVertices] ["tex.png".toList]) [] rfl rfl).elim
    (fun f hf => hf.elim (fun log' h => ⟨f, log', h.1, h.2.1, h.2.2 (by decide)⟩))

/-! ## Tree traversal -/

/-- The mesh loop over a concatenation runs the two parts in turn. -/
theorem meshLoop_append (P : Platform) (scene : aiScene) (xs ys : List Nat) :
    ∀ (self : ModelLoader) (log : List Event),
      ModelLoader.processNode.meshLoop P scene (xs ++ ys) self log =
        match ModelLoader.processNode.meshLoop P scene xs self log with
        | Outcome.fault f log1 => Outcome.fault f log1
        | Outcome.ok self1 log1 => ModelLoader.processNode.meshLoop P scene ys self1 log1 := by
  induction xs with
  | nil => intro self log; rfl
  | cons x rest ih =>
    intro self log
    simp only [List.cons_append, ModelLoader.processNode.meshLoop]
    cases scene.mMeshes[x]? with
    | none => rfl
    | some mesh =>
      simp only
      cases self.processMesh P mesh scene log with
      | fault f log1 => rfl
      | ok r log1 => exact ih _ _

mutual
/-- The recursion of `processNode` visits the mesh references in pre-order. -/
theorem processNode_preorder (P : Platform) (scene : aiScene) :
    ∀ (node : aiNode) (self : ModelLoader) (log : List Event),
      ModelLoader.processNode P scene node self log =
        ModelLoader.processNode.meshLoop P scene node.preorder self log
  | aiNode.mk mMeshes mChildren, self, log => by
    rw [ModelLoader.processNode, aiNode.preorder, meshLoop_append]
    cases ModelLoader.processNode.meshLoop P scene mMeshes self log with
    | fault f log1 => rfl
    | ok self1 log1 => exact childLoop_preorder P scene mChildren self1 log1
/-- The child loop visits the mesh references of the siblings in pre-order. -/
theorem childLoop_preorder (P : Platform) (scene : aiScene) :
    ∀ (children : List aiNode) (self : ModelLoader) (log : List Event),
      ModelLoader.processNode.childLoop P scene children self log =
        ModelLoader.processNode.meshLoop P scene (aiNode.preorderChildren children) self log
  | [], self, log => by
    rw [ModelLoader.processNode.childLoop, aiNode.preorderChildren]
    rfl
  | child :: rest, self, log => by
    rw [ModelLoader.processNode.childLoop, aiNode.preorderChildren, meshLoop_append,
      processNode_preorder P scene child self log]
    cases ModelLoader.processNode.meshLoop P scene child.preorder self log with
    | fault f log1 => rfl
    | ok self1 log1 => exact childLoop_preorder P scene rest self1 log1
end

theorem processMesh_converted (P : Platform) (self self' : ModelLoader) (mesh : aiMesh)
    (scene : aiScene) (m : Mesh) (log log' : List Event) (index : Nat)
    (hmesh : scene.mMeshes[index]? = some mesh)
    (h : self.processMesh P mesh scene log = Outcome.ok (m, self') log') :
    ConvertedFrom scene index m ∧ self'.meshes_ = self.meshes_ ∧
      self'.directory_ = self.directory_ := by
  obtain ⟨hv, hi, material, log1, hmat, hload⟩ := processMesh_fields P self self' mesh scene m log log' h
  obtain ⟨⟨added, e, _⟩, new, hn, hm, _⟩ := loop_ok P scene _ [] self log log1 _ hload
  simp only at e hn
  refine ⟨⟨mesh, material, hmesh, hmat, hv, hi, ?_⟩, by rw [e], by rw [e]⟩
  rw [hn]
  simpa using hm

/-- A mesh loop that returns has appended one converted mesh per reference, in
order, and kept the base directory. -/
theorem meshLoop_ok (P : Platform) (scene : aiScene) (refs : List Nat) :
    ∀ (self self' : ModelLoader) (log log' : List Event),
      ModelLoader.processNode.meshLoop P scene refs self log = Outcome.ok self' log' →
      self'.directory_ = self.directory_ ∧
      ∃ new, self'.meshes_ = self.meshes_ ++ new ∧
        List.Forall₂ (ConvertedFrom scene) refs new := by
  induction refs with
  | nil =>
    intro self self' log log' h
    simp only [ModelLoader.processNode.meshLoop, Outcome.ok.injEq] at h
    rw [← h.1]
    exact ⟨rfl, [], by simp, List.Forall₂.nil⟩
  | cons index rest ih =>
    intro self self' log log' h
    rw [ModelLoader.processNode.meshLoop] at h
    split at h
    · simp at h
    · rename_i mesh hmesh
      split at h
      · simp at h
      · rename_i r log1 hpm
        obtain ⟨hconv, hms, hdir⟩ :=
          processMesh_converted P self r.2 mesh scene r.1 log log1 index hmesh hpm
        obtain ⟨hd, new, hnew, hall⟩ := ih _ self' log1 log' h
        refine ⟨by rw [hd, ← hdir], r.1 :: new, ?_, List.Forall₂.cons hconv hall⟩
        rw [hnew, hms]
        simp

/-- C1: `processNode` on a node equals the mesh loop (convert the referenced
mesh with `processMesh`, append the result to `meshes_`) run over the node's
mesh references in depth-first pre-order; hence a successful `Load` on a freshly
constructed loader leaves `meshes_` with exactly as many entries as the tree has
mesh references, the `i`-th entry being the conversion of the `i`-th reference
of that pre-order. -/
theorem Load_meshes_in_preorder (P : Platform) (scene : aiScene) :
    (∀ (node : aiNode) (self : ModelLoader) (log : List Event),
      ModelLoader.processNode P scene node self log =
        ModelLoader.processNode.meshLoop P scene node.preorder self log) ∧
    (∀ (hwnd dev devcon : Option Handle) (filename : Str) (log log' : List Event)
        (s : ModelLoader),
      P.ReadFile filename = some scene →
      ModelLoader.Load P ModelLoader.ctor hwnd dev devcon filename log =
        Outcome.ok (true, s) log' →
      s.meshes_.length = scene.mRootNode.preorder.length ∧
      List.Forall₂ (ConvertedFrom scene) scene.mRootNode.preorder s.meshes_) := by
  refine ⟨processNode_preorder P scene, ?_⟩
  intro hwnd dev devcon filename log log' s hread hload
  unfold ModelLoader.Load at hload
  rw [hread] at hload
  dsimp only at hload
  rw [processNode_preorder] at hload
  split at hload
  · simp at hload
  · rename_i self2 log1 hloop
    simp only [Outcome.ok.injEq, Prod.mk.injEq, true_and] at hload
    obtain ⟨hs, _⟩ := hload
    subst hs
    obtain ⟨_, new, hnew, hall⟩ := meshLoop_ok P scene _ _ _ _ _ hloop
    have hm : self2.meshes_ = new := by rw [hnew]; simp [ModelLoader.ctor]
    rw [hm]
    exact ⟨hall.length_eq.symm, hall⟩

/-- Instance of C1: the example tree, loaded on a fresh loader. -/
theorem Load_meshes_in_preorder_witness :
    ∃ s log',
      ModelLoader.Load (examplePlatform false (some exampleTree) true) ModelLoader.ctor
        (some 1) (some 2) (some 3) "a/model.obj".toList [] = Outcome.ok (true, s) log' ∧
      s.meshes_.length = exampleTree.mRootNode.preorder.length ∧
      exampleTree.mRootNode.preorder = [0, 1, 0] ∧
      List.Forall₂ (ConvertedFrom exampleTree) exampleTree.mRootNode.preorder s.meshes_ :=
  ⟨_, _, rfl,
    ((Load_meshes_in_preorder (examplePlatform false (some exampleTree) true) exampleTree).2
      (some 1) (some 2) (some 3) "a/model.obj".toList [] _ _ rfl rfl).1,
    by decide,
    ((Load_meshes_in_preorder (examplePlatform false (some exampleTree) true) exampleTree).2
      (some 1) (some 2) (some 3) "a/model.obj".toList [] _ _ rfl rfl).2⟩

/-! ## Base directory -/

/-- A scan over text that holds none of `chars` keeps the position found so far. -/
theorem find_last_of_scan_absent (chars s : Str) (i best : Nat) (h : ∀ d ∈ s, d ∉ chars) :
    find_last_of.scan chars s i best = best := by
  induction s generalizing i best with
  | nil => rfl
  | cons d rest ih =>
    rw [find_last_of.scan, if_neg (h d (List.mem_cons_self _ _))]
    exact ih _ _ (fun e he => h e (List.mem_cons_of_mem _ he))

/-- A scan finds the last position that holds one of `chars`. -/
theorem find_last_of_scan_last (chars pre post : Str) (c : Char) (i best : Nat)
    (hc : c ∈ chars) (h : ∀ d ∈ post, d ∉ chars) :
    find_last_of.scan chars (pre ++ c :: post) i best = i + pre.length := by
  induction pre generalizing i best with
  | nil =>
    rw [List.nil_append, find_last_of.scan, if_pos hc, find_last_of_scan_absent _ _ _ _ h]
    rfl
  | cons x rest ih =>
    rw [List.cons_append, find_last_of.scan, ih, List.length_cons]
    omega

/-- The base directory expression of `Load`: the text before the last path
separator when there is one, and the whole file name (a `std::string`, so no
longer than `npos`) when there is none. -/
theorem directory_expression (filename : Str) :
    (∀ pre post c, filename = pre ++ c :: post → c ∈ ['/', '\\'] →
      (∀ d ∈ post, d ∉ ['/', '\\']) →
      substr filename 0 (find_last_of filename ['/', '\\']) = pre) ∧
    ((∀ d ∈ filename, d ∉ ['/', '\\']) → filename.length ≤ npos →
      substr filename 0 (find_last_of filename ['/', '\\']) = filename) := by
  constructor
  · intro pre post c hf hc hpost
    subst hf
    unfold find_last_of
    rw [find_last_of_scan_last _ _ _ _ _ _ hc hpost]
    simp [substr]
  · intro h hlen
    unfold find_last_of
    rw [find_last_of_scan_absent _ _ _ _ h]
    simp only [substr, List.drop_zero, Nat.sub_zero]
    exact List.take_of_length_le (Nat.le_min.mpr ⟨hlen, Nat.le_refl _⟩)

/-- A successful `Load` leaves in `directory_` the value of the base directory
expression; the traversal does not change it. -/
theorem Load_directory (P : Platform) (scene : aiScene) (self s : ModelLoader)
    (hwnd dev devcon : Option Handle) (filename : Str) (log log' : List Event) (b : Bool)
    (hread : P.ReadFile filename = some scene)
    (hload : ModelLoader.Load P self hwnd dev devcon filename log = Outcome.ok (b, s) log') :
    s.directory_ = substr filename 0 (find_last_of filename ['/', '\\']) := by
  unfold ModelLoader.Load at hload
  rw [hread] at hload
  dsimp only at hload
  rw [processNode_preorder] at hload
  split at hload
  · simp at hload
  · rename_i self2 log1 hloop
    simp only [Outcome.ok.injEq, Prod.mk.injEq] at hload
    rw [← hload.1.2, (meshLoop_ok P scene _ _ _ _ _ hloop).1]

/-- C10: evaluation of `Load` on the file name `model.obj`, which holds no path
separator: the load succeeds, `directory_` is the whole file name `model.obj`
and the texture `tex.png` is decoded from `model.obj\tex.png`. -/
theorem Load_directory_without_separator :
    ∃ s log,
      ModelLoader.Load
        (examplePlatform false (some (exampleScene [exampleTriangle] ["tex.png".toList])) true)
        ModelLoader.ctor (some 1) (some 2) (some 3) "model.obj".toList [] =
        Outcome.ok (true, s) log ∧
      find_last_of "model.obj".toList ['/', '\\'] = npos ∧
      s.directory_ = "model.obj".toList ∧
      Event.CreateWICTextureFromFile "model.obj\\tex.png".toList ∈ log := by
  refine ⟨_, _, rfl, ?_, ?_, ?_⟩
  · decide
  · decide
  · decide

/-! ## Drawing a loaded model -/

theorem processMesh_textured (P : Platform) (self self' : ModelLoader) (mesh : aiMesh)
    (scene : aiScene) (m : Mesh) (log log' : List Event) (hdebug : P.NDEBUG = false)
    (h : self.processMesh P mesh scene log = Outcome.ok (m, self') log') :
    m.textures_ ≠ [] := by
  unfold ModelLoader.processMesh at h
  dsimp only at h
  split at h
  · simp at h
  · split at h
    · simp at h
    · rename_i r log1 _
      split at h
      · simp at h
      · rename_i hne
        split at h
        · simp at h
        · rename_i m0 log2 hctor
          simp only [Outcome.ok.injEq, Prod.mk.injEq] at h
          obtain ⟨⟨hm, _⟩, _⟩ := h
          subst hm
          rw [(ctor_fields P _ _ _ _ _ _ hctor).2.2]
          intro hnil
          apply hne
          simp only [List.nil_append] at hnil
          simp [hdebug, hnil]

/-- With assertions enabled the mesh loop appends only meshes that hold a
texture record. -/
theorem meshLoop_textured (P : Platform) (scene : aiScene) (hdebug : P.NDEBUG = false)
    (refs : List Nat) :
    ∀ (self self' : ModelLoader) (log log' : List Event),
      ModelLoader.processNode.meshLoop P scene refs self log = Outcome.ok self' log' →
      (∀ m ∈ self.meshes_, m.textures_ ≠ []) → ∀ m ∈ self'.meshes_, m.textures_ ≠ [] := by
  induction refs with
  | nil =>
    intro self self' log log' h hall
    simp only [ModelLoader.processNode.meshLoop, Outcome.ok.injEq] at h
    rw [← h.1]
    exact hall
  | cons index rest ih =>
    intro self self' log log' h hall
    rw [ModelLoader.processNode.meshLoop] at h
    split at h
    · simp at h
    · rename_i mesh hmesh
      split at h
      · simp at h
      · rename_i r log1 hpm
        obtain ⟨_, hms, _⟩ :=
          processMesh_converted P self r.2 mesh scene r.1 log log1 index hmesh hpm
        have ht := processMesh_textured P self r.2 mesh scene r.1 log log1 hdebug hpm
        apply ih _ self' log1 log' h
        intro m hm
        simp only [List.mem_append, List.mem_singleton] at hm
        rcases hm with hm | hm
        · exact hall m (by rw [← hms]; exact hm)
        · rw [hm]; exact ht

/-- C7, amended: for every loader whose meshes each hold at least one texture
record, `Draw` returns after issuing, for each mesh in list order, a bind of its
vertex buffer, of its index buffer and of its first texture record and then one
`DrawIndexed` whose index count is the length of its index list modulo 2^32;
these are exactly `k` `DrawIndexed` calls, and the index count is the length
itself when every mesh has fewer than 2^32 indices. With assertions enabled,
every mesh of a model loaded by `Load` on a fresh loader holds at least one
texture record. -/
theorem Draw_one_call_per_mesh :
    (∀ (self : ModelLoader) (log : List Event),
      (∀ m ∈ self.meshes_, m.textures_ ≠ []) →
      self.Draw log = Outcome.ok () (log ++ self.meshes_.flatMap
        (fun m => m.drawCalls (m.indices_.length % 4294967296))) ∧
      (self.meshes_.flatMap (fun m => m.drawCalls (m.indices_.length % 4294967296))).filter
          Event.isDrawIndexed =
        self.meshes_.map (fun m => Event.DrawIndexed (m.indices_.length % 4294967296)) ∧
      ((self.meshes_.flatMap (fun m => m.drawCalls (m.indices_.length % 4294967296))).filter
          Event.isDrawIndexed).length = self.meshes_.length ∧
      ((∀ m ∈ self.meshes_, m.indices_.length < 4294967296) →
        self.Draw log = Outcome.ok () (log ++ self.meshes_.flatMap
          (fun m => m.drawCalls m.indices_.length)))) ∧
    (∀ (P : Platform) (hwnd dev devcon : Option Handle) (filename : Str)
        (log log' : List Event) (b : Bool) (s : ModelLoader),
      P.NDEBUG = false →
      ModelLoader.Load P ModelLoader.ctor hwnd dev devcon filename log =
        Outcome.ok (b, s) log' →
      ∀ m ∈ s.meshes_, m.textures_ ≠ []) := by
  constructor
  · intro self log h
    have h1 := Draw_loop_textured self.meshes_ log h
    refine ⟨h1, drawCalls_filter _ _, ?_, ?_⟩
    · rw [drawCalls_filter, List.length_map]
    · intro hlt
      unfold ModelLoader.Draw
      rw [h1]
      congr 2
      apply List.flatMap_congr
      intro m hm
      rw [Nat.mod_eq_of_lt (hlt m hm)]
  · intro P hwnd dev devcon filename log log' b s hdebug hload
    unfold ModelLoader.Load at hload
    split at hload
    · simp only [Outcome.ok.injEq, Prod.mk.injEq] at hload
      rw [← hload.1.2]
      simp [ModelLoader.ctor]
    · dsimp only at hload
      rw [processNode_preorder] at hload
      split at hload
      · simp at hload
      · rename_i self2 log1 hloop
        simp only [Outcome.ok.injEq, Prod.mk.injEq] at hload
        rw [← hload.1.2]
        exact meshLoop_textured P _ hdebug _ _ _ _ _ hloop (by simp [ModelLoader.ctor])

/-- Instance of C7: one mesh of three indices, and a loaded triangle. -/
theorem Draw_one_call_per_mesh_witness :
    ({ ModelLoader.ctor with meshes_ :=
        [{ textures_ := [{ type := [], path := [], texture := some 7 }],
           vertices_ := [], indices_ := [0, 1, 2],
           VertexBuffer_ := some 1, IndexBuffer_ := some 2 }] } : ModelLoader).Draw [] =
      Outcome.ok ()
        [Event.IASetVertexBuffers (some 1) 20 0, Event.IASetIndexBuffer (some 2),
         Event.PSSetShaderResources (some 7), Event.DrawIndexed 3] ∧
    ∃ s log',
      ModelLoader.Load
        (examplePlatform false (some (exampleScene [exampleTriangle] ["tex.png".toList])) true)
        ModelLoader.ctor (some 1) (some 2) (some 3) "a/model.obj".toList [] =
        Outcome.ok (true, s) log' ∧
      ∀ m ∈ s.meshes_, m.textures_ ≠ [] :=
  ⟨(Draw_one_call_per_mesh.1
    { ModelLoader.ctor with meshes_ :=
        [{ textures_ := [{ type := [], path := [], texture := some 7 }],
           vertices_ := [], indices_ := [0, 1, 2],
           VertexBuffer_ := some 1, IndexBuffer_ := some 2 }] } []
    (by decide)).2.2.2 (by decide),
   _, _, rfl,
   Draw_one_call_per_mesh.2
    (examplePlatform false (some (exampleScene [exampleTriangle] ["tex.png".toList])) true)
    (some 1) (some 2) (some 3) "a/model.obj".toList [] _ true _ rfl rfl⟩

end AssimpDemo
